import Mathlib

/-
Verification of the integer-partition enumeration engine and its
collaborators (batched persistence, random sampling) from the
repository's three partition scripts:

  main_project/code/partitions_file.py            (main)
  main_project/code/partions_file2.py             (main)
  main_project/code/partitions/00_create_partitions_code.py
                                                  (generate_n80_partitions_sqlite_only)
  main_project/code/partitions/02_random_sampling.py
                                                  (random_sample_sqlite)

All three enumeration scripts share one algorithm on a fixed array of 80
cells: start from IP = [N] + [0]*79, and repeatedly (1) scan for the first
index J with IP[J] <= 1, stopping when J == 0; (2) decrement the part at
J-1 and greedily redistribute the freed amount.  Python integers are
unbounded, so values are modelled as Int, with Python's floor division
and floor modulus rendered as Int.fdiv and Int.fmod.
-/

/-- Scan from the front while entries are greater than 1; mirrors
`J = 0` followed by `while J < 80 and IP[J] > 1: J += 1` on the
length-80 array IP (the list always has length 80, so running off the
end of the list is exactly the `J < 80` bound). -/
def findJ : List Int → Nat
  | [] => 0
  | x :: xs => if 1 < x then findJ xs + 1 else 0

/-- One transition of the enumeration loop body (the `while True` body in
partitions_file.py, partions_file2.py, and
generate_n80_partitions_sqlite_only), returning none when the loop
breaks (`if J == 0: break`).  The three array-update loops are the
source's guarded writes: `count` copies of new_value at indices
part_to_modify + i with an `< 80` bound, the remainder cell with an
`< 80` bound, then zeroes from next_position to 79. -/
def stepIP (N : Int) (IP : List Int) : Option (List Int) :=
  let J := findJ IP
  if J = 0 then none
  else
    let part_to_modify := J - 1
    let sum_before := (IP.take part_to_modify).sum
    let remaining := N - sum_before
    let current_value := IP.getD part_to_modify 0
    let new_value := current_value - 1
    let count := remaining.fdiv new_value
    let remainder := remaining.fmod new_value
    let IP1 := (List.range count.toNat).foldl
      (fun a i => if part_to_modify + i < 80 then a.set (part_to_modify + i) new_value else a) IP
    let IP2 := if part_to_modify + count.toNat < 80 then
        IP1.set (part_to_modify + count.toNat) remainder
      else IP1
    let next_position := part_to_modify + count.toNat + (if 0 < remainder then 1 else 0)
    let IP3 := (List.range' next_position (80 - next_position)).foldl (fun a i => a.set i 0) IP2
    some IP3

/-- Initial array `IP = [N] + [0] * 79`. -/
def initIP (N : Int) : List Int := N :: List.replicate 79 0

/-- Fuelled enumeration loop: emits each post-transition array in order;
the Bool records whether the loop reached its break (terminal state)
within the given fuel.  The source loop runs unboundedly; every theorem
below either exhibits enough fuel or assumes enough fuel for the run to
complete, and completion is always part of the conclusion. -/
def runLoop (N : Int) : Nat → List Int → List (List Int) × Bool
  | 0, _ => ([], false)
  | fuel+1, IP =>
    match stepIP N IP with
    | none => ([], true)
    | some IP2 => (IP2 :: (runLoop N fuel IP2).1, (runLoop N fuel IP2).2)

/-- The whole enumeration run for one value of N: the initial partition
is emitted first (written to the sink before the loop in every script),
then each transition result until terminal. -/
def runN (fuel : Nat) (N : Int) : List (List Int) × Bool :=
  (initIP N :: (runLoop N fuel (initIP N)).1, (runLoop N fuel (initIP N)).2)

/-- Nonzero cells of the array, as each script extracts them per record:
`non_zero_parts = [val for val in IP if val > 0]`. -/
def nonZeroParts (IP : List Int) : List Int := IP.filter (fun v => decide (0 < v))

/-- Model of the sampling query of random_sample_sqlite in
02_random_sampling.py: `SELECT * FROM partitions ORDER BY RANDOM() LIMIT
100000`.  ORDER BY RANDOM() hands back the stored rows in an order
chosen by the engine (a permutation of the table; the script passes no
seed and has no M parameter), and LIMIT keeps the first 100000 of that
order.  The argument is the engine-delivered row order; theorems relate
it to the stored population by a permutation hypothesis. -/
def random_sample_sqlite (shuffled : List Nat) : List Nat := shuffled.take 100000

/-- Commit decision as executed per loop iteration in
generate_n80_partitions_sqlite_only: the batch test
`partition_count % 100000 == 0` runs only inside the ten-second progress
branch, so a commit happens only when both hold.  timerFired abstracts
the wall-clock test `current_time - last_print_time >= 10`. -/
def commitsAt (timerFired : Bool) (partition_count : Nat) : Bool :=
  timerFired && (partition_count % 100000 == 0)

/-- Number of appended-but-not-yet-committed records after the record of
rank r has been appended and its commit check has run.  Rank 1 is
inserted before the loop with no commit check, but the loop's check at
count 1 is vacuous anyway (1 % 100000 is nonzero), so the uniform
recursion is exact. -/
def uncommittedAfter (timer : Nat → Bool) : Nat → Nat
  | 0 => 0
  | r+1 => if commitsAt (timer (r+1)) (r+1) then 0 else uncommittedAfter timer r + 1


/-- Count of leading entries greater than 1 of the nonzero-parts list;
the list-level counterpart of findJ. -/
def leadCount : List Nat → Nat
  | [] => 0
  | x :: xs => if 1 < x then leadCount xs + 1 else 0

def nextPart (l : List Nat) : Option (List Nat) :=
  let a := leadCount l
  if a = 0 then none
  else
    let ptm := a - 1
    let A := l.take ptm
    let v := l.getD ptm 0
    let r := v + (l.drop a).sum
    let nv := v - 1
    some (A ++ List.replicate (r / nv) nv ++ (if r % nv = 0 then [] else [r % nv]))

def greedy (n k : Nat) : List Nat :=
  List.replicate (n / k) k ++ (if n % k = 0 then [] else [n % k])

def parts : Nat → Nat → List (List Nat)
  | 0, _ => [[]]
  | _+1, 0 => []
  | n+1, k+1 =>
    (if k ≤ n then (parts (n - k) (k+1)).map (fun l => (k+1) :: l) else []) ++ parts (n+1) k
termination_by n k => (n, k)

def padL (m : Nat) (l : List Nat) : List Int :=
  l.map Int.ofNat ++ List.replicate (m - l.length) 0



/-- Rows of the partition-count table, each packed into one natural
number: 81 entries of 24 bits each, entry k in bits 24k..24k+23.  Every
partition count in the table is below 2^24 = 16777216, so the packing is
lossless. -/
def pRows : List Nat :=
  [94971150841510851223764580993712034606897841472006485914330125075275887040120621132051226511639945975241841758978256556620072219803019482908565500511704278408360105603823166328979352101686250022772779856827667102711534188829861444161633120148762347934662245571419438117345398209459071334108240505868074474371204003158844205081193022195895790262629991563843738563600061702013574546452807329825812519265052504215087199562799655980634295368493083218550510927799301191501580484765785164752088693300072303433410833425664873000006145945919267643465537727630338081600318823106011463681,
   94971150841510851223764580993712034606897841472006485914330125075275887040120621132051226511639945975241841758978256556620072219803019482908565500511704278408360105603823166328979352101686250022772779856827667102711534188829861444161633120148762347934662245571419438117345398209459071334108240505868074474371204003158844205081193022195895790262629991563843738563600061702013574546452807329825812519265052504215087199562799655980634295368493083218550510927799301191501580484765785164752088693300072303433410833425664873000006145945919267643465537727630338081600318823106011463680,
   189942301683021702447529161987424069213795682944012971828660250150551774080241242264102453023279891950483683517956513113240144439606038965817131001023408556816720211207646332657958704203372500045545559713655334205423068377659722888323266240297524695869324491142838876234690796418918142668216481011736148948742408006317688410162386044391791580525259983127687477127200123404027149092905614659651625038530105008430174399125599311961268590736986166437101021855598602383003160969531570329504177386600144606866821666851329746000012291891838535286931075455260676163200637646212006150144,
   284913452524532553671293742981136103820693524416019457742990375225827661120361863396153679534919837925725525276934769669860216659409058448725696501535112835225080316811469498986938056305058750068318339570483001308134602566489584332484899360446287043803986736714258314352036194628377214002324721517604223423113612009476532615243579066587687370787889974691531215690800185106040723639358421989477437557795157512645261598688398967941902886105479249655651532783397903574504741454297355494256266079900216910300232500276994619000018437837757802930396613182891014244800956187843024125952,
   474855754207554256118822904968560173034489207360032429571650625376379435200603105660256132558199729876209208794891282783100361099015097414542827502558521392041800528019115831644896760508431250113863899284138335513557670944149307220808165600743811739673311227857097190586726991047295356670541202529340372371856020015794221025405965110979478951313149957819218692818000308510067872732264036649129062596325262521075435997813998279903171476842465416092752554638996505957507902423828925823760443466500361517167054167128324365000030729729596338217327688638151690403279227069710391574528,
   664798055890575958566352066955984242248284890304045401400310875526931209280844347924358585581479621826692892312847795896340505538621136380359958503581929948858520739226762164302855464711803750159409458997793669718980739321809030109131431841041336435542635718999936066821417787466213499338757683541076521320598428022111909435568351155371270531838409940946906169945200431914095021825169651308780687634855367529505610396939597591864440067579451582529853576494595108340511063393360496153264620853100506124033875833979654111000043021621434873504258764093333138399243233332509238362112,
   1044682659256619363461410390930832380675876256192071345057631375828034757441326832452563491628039405727660259348760822122820794417833214311994220505628747062491961161642054829618772873118548750250500578425104338129826876077128475885777964321636385827281284701285613819290799380304049784675190645564548819218083244034747286255893123244154853692888929907202281124199600678722149320010980880628083937711915577546365959195190796215786977249053423915404055620205792313106517385332423636812272975626300795337767519167682313603000067605405111944078119585775779477637812606670115172253696,
   1424567262622662768356468714905680519103467622080097288714951876129138305601809316980768397674599189628627626384673848349301083297045292243628482507675564176125401584057347494934690281525293750341591697852415006540673012832447921662424496802231435219019933683571291571760180973141886070011623607588021117115568060047382663076217895332938436853939449873457656078454000925530203618196792109947387187788975787563226307993441994839709514430527396248278257663916989517872523707271486777471281330399501084551501162501384973095000092189188788992351235208927523447173427076257421434290176,
   2089365318513238726922820781861664761351752512384142690115262751656069514882653664905126983256078811455320518697521644245641588835666428623988441011257494124983922323284109659237545746237097500501001156850208676259653752154256951771555928643272771654562569402571227638581598760608099569350381291129097638436166488069494572511786246488309707385777859814404562248399201357444298640021961761256167875423831155092731918390381592431573954498106847830808111240411584626213034770664847273624545951252601590675535038335364627206000135210436079424398034968973940100690642147608783881240576,
   2849134525245325536712937429811361038206935244160194577429903752258276611203618633961536795349198379257255252769347696698602166594090584487256965015351128352250803168114694989869380563050587500683183395704830013081346025664895843324848993604462870438039867367142583143520361946283772140023247215176042234231136120094765326152435790665876873707878899746915312156908001851060407236393584219894774375577951575126452615986883989679419028861054792496556515327833979035745047414542973554942562660799002169103002325002769946189993907275893902421023717949566002043092013110162359815503872,
   3988788335343455751398112401735905453489709341824272408401865253161587255685066087546151513488877730960157353877086775378043033231726818282159751021491579693151124435360572985817132788270822500956456753986762018313884435930854180654788591046248018613255814313999616400928506724797280996032546101246459127923590568132671456613410106932227623191030459645681437019671202591484570130951017907852684125809132205177033662381637585551186640405476709495179121458967570650043066380360162976919587725118603036744203255003877819353696035367574560128738120406589349957837634270151614020976640,
   5318384447124607668530816535647873937986279122432363211202487004215449674246754783394868684651836974613543138502782367170724044308969091042879668028655439590868165913814097314422843717694430001275275671982349357751845914574472240873051454728330691484341085751999488534571342299729707994710061468328612170564787424176895275484546809242970164254707279527575249359561603455312760174601357210470245501078842940236044883175516780734915520540635612660238828611956760866724088507146883969226116966824804048992271004904989957485007569065740024484298898119583235152135857257970707732627456,
   7312778614796335544229872736515826664731133793344499415403419630796243302089287827167944441396275840093621815441325754859745560924832500183959543539401229437443728131494383807331410111829841251753504048975730366908788132539899331200445750251454700790968992908999296735035595662128348492726334518951841734526582708243231003791251862709083975850222509350415967869397204751055045240076866164396587563983409042824561714366335573510508840743373967407828389341440546191745621697326965457685910829384105567334729855795328698386587027963632445821220381054317188787628581742444820371079168,
   9592086234992595973600222680364915495296681988672655077347342632602864591052182734337173877675634543499426017656803912218627294200104967773765115551682132119244370665986139799226914562270311252300050765539594377373864953071816005860324945135024997141400886802713363249851885219155366204744932291092675521911491604319043264713200495241785474816525629147948217594923606231903371029191733540312407064445770302925723807155842765254044063832217801405073601603707729420341659628961344301639960958022809979351079150776941881568331132114558907860284634732103775660853694807945523411025920,
   12821105363603964915208218434151124671931208598720875598434566885162244750416283852826915579071392706657648637462064635143709749673407630192656342569080077585128614256516127454412212533727643753074325280671735058866057115492031294961820471220082916971179403152141624145841628758276974630104612468292190054040112540426443967685961057996445931685455048861118904706086008329771832563771128989526484690100782088069036771940977953557385629874746566234504318975252905660852713365443380997241523629895156048317110421927671767235713237845541754784132432647327585049912316617172560715448320,
   16714922548105909815382566254893318090814020099073141520922102013248556119061229319241015866048630491642564149580173153965132710685331428991907528090059952999871378586272877273900365969896780004008009254801669410077230017234055614172447429146182173236500555220569821108652790084864796554803050329032781107489331904555956580094289971906477659086222878515236497987193610859554389120175694090049343003390649240741855347123052739452591635984854782646464889923292677009704278165318778049012304536507342140300980468364011255953293711740819022915552149389490226814651435033874107274887168,
   21938335844389006632689618209547479994193401380033498246210258892388729906267863481503833324188827520280865446323977264579236682774497500551878630618203688312331184394483151421994230335489523755260512146927191100726364397619697993601337250754364102372906978726997890205106786986385045478179003556855525203579748124729693011373755588127251927550667528051247903608191614253165135720230598493189762691950227128473685143099006720531526522230121902223485168024321638575236865089632353510315773113236392258392876543673731954060631127188056717621711109314137548044209061195261710851637248,
   28206431799928722813458080555132474278248658917185926316556047147356938450915824476219214273957063954646827002416542197316161449281496786423843953651976170687282951364335480399706867574200816256763515617477817129505325654082468848916005036684182417336594686934711573120851583268209344186230147430242818118888247588938176728909114327592181049708001107494461590353389218325498031640296483776958266318221720593751880898270151497826248385724442445715909501745556392453836567393081957989235180895678482685590203377758157074771319154574964781887544544265777596491249582706991705056346112,
   36563893073981677721149363682579133323655668966722497077017098153981216510446439135839722206981379200468109077206628774298727804624162500919797717697006147187218640657471919036657050559149206258767520244878651834543940662699496656002228751257273503954844964544996483675177978310641742463631672594759208672632913541216155018956259313545419879251112546752079839346986023755275226200384330821982937819917045214122808571831677867552544203716869837039141946707202069902680514216248915103713205556931389763449212015217421247846014584498511899457304044900254776264629736175541781513895936,
   46535863912340317099644644686918896957379942321283178098021761286885184649659104354705100990703573527868502461899345712743835387703479546625197095250735096420096451745873351501199882529826262511158662129845556880328651752526632107639200228872893550487984500329995524677499245122634944953713037847875356492441889961547833660489784580875988937228688695866283431896164030233986651527761875591614648134439875727065392727785771831430510804730561610777089739263941558988481147585455216651702980252606238611751357147802273445815211568655384699840284623240950905679554888237571958061924352,
   59546911577627303717300392283057445698524946602948066668284988422197981174155629449796119022798246126476634782879366861000785281816493215783670568820838582562041786213597125288270053767757278764278532970230947273400131936396323125489343966333273992155033227973279987699575564677330837726485866797179282695430744909980595316585908024916826660494669004710530024079377238687162511240625910195800784449579187920142859674125875384299857703196045162991960434750694600675774744451352430690396529036569381252581701283685610371786911088497831033866401679076470973899100353747604167670628352,
   75217151466476594169221548147019931408663090445829136844149459059618502535775531936584571397218837212391538673110779192843097198083991430463583876405269788499421203638227947732551646864535510018036041646607512345347535077553250263776013431157819779564252498492564194988937555381891584496613726480647514983701993570501804610424304873579149465888002953318564240942371248867994751040790623405222043515257921583338349062053737327536662361928724772986634541221364988027330186685728925399486875181066420462672092396874691375621073710563975384593114143899130219321364555269407938445312000,
   95161093143193872926212110155699458676111637154950498886158785325426438814200862374315328964663225867192325442496213069733312364242625521874382631512727686965176825815030812661637310805889622522818325416541322436916957257207521167049956386389059872630531570062562276993580089005877989476776456986879810623319946411165161893491355408240287581843155251546971426040727261825417601695545712944485464144303582609223517373961925255292543189703260233270152485138281639770165016117212430357420130088982288738220657135049597242304155031205484965490993604269806748964697537130374982551994368,
   119188794306096118285824549147108603431656791047368139822484306969471238235351379520724289272108132198928511407517711978558190635852789451050249703142188869402491932532798073742869086887616243778579838720318722213902975406981476112422849565786696746658001118192131394837268474752871134524305841834864433465335861023964349477376897242855849216779600639412623891897318077436027036055798273198931394711677640892789934435451312689561490795457475629712379090774346014687481868882679576445799256016445065646306138213512533537789322886576502459860613386395524551040601194852116641060225024,
   149579562575379590677429215065096454505864100318410215315069946993559522088189978282980681755832914911005900770390754076676613746189755685580990663305934238493167166326021486968142479560155843785867128274503575686770666347407031774554572164234300697997093036774985615034819002179898037351220478796742217297134646304975179623002879009958535869663642236713053888237670097180671379910663171544475654717842457694138762324569366978821942617554959393552445573211107661564874836315991903115346128512787720117474684564975856067429420311941383855794055358805701091811800769258687356475539456,
   185953513347678246696131049585688163760305973602188699420258384897390186824556176176556301509791014219523526164079426337862101406374312147534971250001916977123569086772285759672141571415101677544589102959668572187109183941728868707668477649251276677256068676828839259833762289694120861672183934910489689820818817438185016953548975937459563957334229523482006040107528920812542578961954596751798940912720972803005810305786772233654519008266997678174153439616796099851086612049776782094335009425325705924180073822722737875083713977061403294867229145208468510303917037656626959474491392,
   231349723449920433581090519300682516302403141825807799687308184683372060829733833077676787782354908395689126524871032971926495927440155460365265559246511622202765217250913233177393701719707705055474491731232197062205297283989542477977738280682385079568837230211977751253853390038242297769887673872294629419568252951694944483577786202069202145079766659449523347140929750306105067595159038655455679296925518384204410563262089447288213343470718085415898225523591619801262197923692743671804770592586001213677074088099273250572043931239185756910442418511219236457485005840731438342733824,
   285863164032947662183531388791073224166762502830739522602133676476580419990763069607474191800036237385477943694524552235426417381607088643554782156540229878009163917867507730650227849826075612568546067369051277979161717908377882946926515691647774667283333359169972508733209648610471804715665803922662904167857324049508121057294390996809646328690516274607169653076436185723060859384822950062775626065660514526263169333974879169320173056439440632245837671545991639383613146437938504694040771439359463520291648074696946532453365083155569855336174834224544012135237389781256890908409856,
   353102738828737344849956712134621344668446174592920114629479405029875748015168469368966460170277319135949167659881157877513428513227626437454046530902516507122282872635014532411145231114069477584669195507685266287881484114069424849392951940713098409621074229034537470920290190542768827220214438200817500895712136483744582754491875656524340548196458308634371019979465029408086470163711536484307433600690902215930607306238804729356143922350914839765509346962666759514027557266101014628632476310903408326650156914834934775315639647999711282206661224496870963511415847907247101908615168,
   433543303591497035836485312236295437980488646319709608198917020968634424338150635467813849025636353376979007629735741180970629683400783939477601509835930030934163882081452754291790742344197731353957740046418300323878153572008317492597855193479100118321733151033529735005681742826180660640204117909287759975504546274420123796195646146324264282548905911488946666542834281669691967784961529882055589710784586602716682714058816631238438264485437010432016875320003551762071132645692427471666914079014400648962083606899391468758452143029982003873645819645382852747291636610014796308283392,
   532218329315826810257976711888762241937055503609124347063906020921846070972835960824015073371230257245255281217314149743298884719776121182219601064867590776200450031803825024107600289177849745127618658317662246443595437594202543533081792005313664197825847224182234531209603611565808635756342579794884689354376227233702162925275005696385800008631778472723780310910414745777755313225283687774942872228287883545645645277707048996554213035067603117896920116981493747506623209551187351728179948041230253066317139047841302556693604700694731465112118897029122959852258071511017720545017856,
   649792614057617244072997263158977740780395031351468376625846715765037619128505289785494491792640510362604681314929231360394534127892259302060405154501080672869999842541358104022876727079737322655811359780414898316752316919973912000953893808057831984568959084199651795598877214549118966067968581541149365553647777789612812051165522657864318996976914402279818859252146106512256257993455691187643753429609652255336433070163444439859014935900936971609173524203310217723234728124166283947523916159046497105519903006402240219458614852702351976502300739659384965273909260609850331786903552,
   792914138375774096867210486716501776932990078449782150898742214253478380897967065831495690145681908947294136845709463991220982963135409662803613363772219020431398521686319615680648610696978501440129939024654192640538598942540513197305474920122016842906495088275780888841716729650773786568469699983492553786525182222373190268222880542313533952902697799566531280730196484893399155772782649488020284828758787922826269154941650298532000841117139392033837909995130690181408225466200194432941258523965005533038892017943469870323516157148260019993438205493780160910530568418949309537452032,
   963292382985444563962644145019221167017764806050561786629050458638523322247943460142395590507563972026878000961316456253797392525462026615141579871690216495895996551139578376074837568367403633980984306087803027422803091277301284628131444737668896495101279156830907360824234374038543360541859883451019879393547122204040156772138540824132971000633856002879548762875285630181448600464102437341532200335325435228579362268283314059618686174581546348582833933433181973023482399118720731924187432690580887995162136517200412973417540475294996656574357060168741817526946620468804517145608192,
   1169094866858998578564541992032595146010912428520399841605403839676646169463884846135550598358287734955227072053022338211993089025775169834604441311299079667206912899983063177509735824371757737780332920037548582034378985864495594377629703709031264503075692242984173283224521851958441168122872440627235996779509521278885372164549486103231477178106928261667442936209178262823052636148570522197466036303693725664483916853919780277349898492022311487536823727195396081396855833305150600711721122147991834487702877198395276052695625422375096120845847239417033359747669287446704937729261568,
   1413455637974205998763288258929416211054460574627872529862975251495331026818115204308318404172737315949524330898873392332176534847328338964128180344115694775551623451701700184474199697329396459088927282609166169489655763332354827873457585727174030024311578200839435497500451561551379358665532943448834552402066629179013078304223395749341080051432755081348033385394926446759646354685912913066700435268559364678140763986189567947902627165498990276511905621755690026499845889345418437886086220620094332362053330904175637485935945156988350342010108881716139064085616426055275278009106432,
   1707296378677840572449615872523961246128202496142260597281912658478234621320248406090884898999751308796922589301152118118359038295398881244247282002698907812947089618439929061096061812732013716659386263486190971505445250112594419181693678600914300728821423188637407239035518223611445725373263839573990374825771134364786542274744599628455341501869296862493744193480233452663693550057146637388089372953949828737110933376913390834457509300657430808140564594307444273101258308658268753514282382272505444433783359601136247628232295722665364448728543880355683635262211754747939664510844928,
   2054890790757770287928594238960947292789448595929804335728360916253744367887089879434192388032353511066307730139012537115588502619877932551692631734571745471921687604949921849860126241424185391742734637762180233101369465243711712067325255820658770922262287007428802382545002381058065926456099999825467527401969741016347911942338603034995834406727119387027746744259569052557447592495908081281269486681945059488475059295680421346032812077816557166576958040002732784723873427451886850279315143870207705666434948080253899871624176714710537874543800397096449987985125609450457217556807680,
   2470674489141904794586235574551418580298447345894248731061298203833302201348737958750312657700313194545916513359819344320471178798175551847866331495811986802793488147283459672048397844925367794342433867975371759677040561922408845469864885620670052481520238318540476682622740534419077740756825876760157957450766872140113681236932203331349313079527331840090038197806513096996872826113439567975784992078133657399153469264798854771064945222757511914515975750928264852546487371139844525092090691545909482179401331261844362420500311487580419383719067924847739004419322164680177236882489344,
   2961675338992515895413098458288909799216109186304522263238384950472478537346161570003017498765491715237916835253736930718196952174557162574503615133457497922164709893255225441969221095291085706960169139835170798598059193678659229136180528851839153820342442128144715177689416243161981139554165480175495902483231374523988748061361998506441166698413371756453080400528933347012356008912420897724494369826151046814972892318260865087735065109614836381490254900090698408542100281814641981829717913378554077514960131540112882363954496188376854901582763693797022421514348470625791259598389248,
   3546032830120332162992921925143219948152351604881778171069258210060651070304023751828528695491612302823579887596730143311080256543005141452840018658106014347211349623035549384391431048772761203350290054294231434281043263542529366602107057440114488547184418925145658980425442478344782805472933484008101583858022896306896402610971403862625568503661642253724293578468734282897775173601007581628728699464591969246113131541865381231243214931154585872922102750301578434061558808215102569294663142411753709524308294184784245921914649597776884246914325492803832486282347323712318390101082112,
   4234098817967078280109096314442663638879326466346465161518579966231024871909697651930239831568443711414207031140527612063792679775478017606512575709313311844279918588135248224444886454749478084765278844356947882440188328740601712765058089395592271757971046894310592809585609888372313777288547676727801191158794070195414969441501195704719943424759503039538513907483803936820405883086666040754660037008937887701916019666359164948408082216361074408369450329396642754617042015797919464473405242906583649147038993863475109092854253747663421623748095648681378760209089955102808419434758144,
   5049995974846498002972457829759643728187185822432472882008590070752720017471373908075691918529942487287509693691909814141715720215805757984180061924209363300086140255377693046377148068655064658710919796106954370519583118956839052431850679530790289089077730246014657202451724204389776658956372323011314398865164335571678811518572653845127289969947825245922997403759748161681094061917890110113007748367750376704315553982260232490879470027295097783141350156944813232229722783757048827879307505743533333141754325223930672288991278250561824567534599568906577689605921641785370623604686848,
   6007969973384817959266571158243217021266964349360602305426438042387027890045070613434692640352854622339774151514723488028342388696958815508278762127870924356391268640603457325137562793304773862690628826522775048584634364319565864819109072813730854892694668317093565074741387236125847249305626043004663685593552118389327479408447829194348798765391666788498365255381000531012736652862566678712127830861406679952415334430418592259862966012412842664584879511118711859353983873180502679265854370924773505056112988164043112679124715961370152439451035757801425864334141646250520523271307264,
   7139456264510578240746502376202302201573545232658087578609767152533864808241067693601950953012532938688805454231190436643913929123691989627651411500967369129348470938767406528781022794244263845461943725737019874446339582645284834064850769807183209505988234310831456260471394289446347087531558400286950325250517344807668801962806410785425648719956353412570099550917007758946991934178676009515280336560740846313434897659129404826864628508268841201475509760145012824904571024130759098186508970388730062695510895822211662590657280041281728216125639013795436567263996405499077780169555968,
   8465158559107228212979032162293528492651232201765826115487901368459640915434111443984254023888514944557206323344767919917773517239922338589572077322610249151650769652891174107567245570231702209529828959758477279533089888387160869963903006531339783120808184596762899425048050434366019012645904483224229115146703404092107661822555936417771616416786533191715584249019118911204263685313848822210558210916457636210259143653885080768297092563736092376886895741910321980464974158700005783790030611429270305291988262599834927022373930824368330738274054780535992618765137689703679840426655744,
   10024964740528202433478141640534254949034922350102060640144859342695972084181052525457063368115689417254578332394226805603701583377967130576862357103014480220229676027328365791354402449149797179903849096127014884028024125904502514322813668896663055923287077305074147292916037390365309820939486517477536116352508429754176428738433542776139031356625855622826978339392967637470635517759479289994406541664020389485460925834507455755362971532141198144910679337356519080215929354902340641649107591939078106421302794247447094981177067601679874652615889386509970788884241003008993437679616000,
   11848030952081844733569526537289551165348933314998697143756340423640968011803207968707918712233129820195320726799573418464580489709305892570775180450837155548556556614499355292205490092093766435340995378258678781731674736193280534604940378271038697954023525993461467335257561292977571238919685980522296631318912953024298472884174919054924756642482050384030320841786659949695135665957587468608573962701675613895464487507769474890605952874508157776426143948833572033467398870198219924142760834170466141854007088489317569157930512708648309362410185479118090584760452484070564649404203008,
   13986686297881827592277481136686952472661665807106811200061140510211105712059684235980580282048749763611791761370004777863107896027050088306393166956860224194034417832591849174767776122071639099603815607854581017217635774591540184466016194503665031112096562299559162055680291378554342434703268360196770490934344560353324566991131645256598396645359718383789048278574460990676750951614589898574413857727649389157166014308844029392828946072699195502443080636147732736934913594366502329178299806432503191195965575551548265013097665613442597180982583521428120332468401934688981045827600384,
   16479868949773170458603748916933880805161947941429925468284134953687248298636930781939189080432321625353840591226701968987498031941318955771708828476293484910810687324903414937236142073445106535201646624656020933998018970116701707098147326001479201267722892958379598841109270359363761525440816752583220929954828717783472646107477762196996470476808429045192635356276450039036550013809740971362435648746223851810219433804696705725632351448101923570679294615183846881013966684526080492266195219858799438902719976610996890678317188004521552356159441090043463281902400840447982540379127808,
   19395578251758395102024545318021833979628318572461996592339984123623293306655673971314293785566179606739740375069093423532290869161491456916484697907503317962225750927046389966702137162318976097150793739040487141718365781247967282269052211680597829454949484721664354758421595839319067829067951313781496185266272327945650640828534369513259276739134809585159845260429871505818043108242174854155201014132543077409788335013070562036571970018304215303519478368757351247401068897302439711297179824891982243392000194125105696775350855817332749678243196413769715071432037874370920310183559168,
   22787662846364638175183744857374246719682888776317652249742113200936922164067662196287767442882423557137453237174519812965089988636195903787529931889279859674137148818898141998474292681334903889214169117186800927625913647853184962987486037299984132881009284226188704511625603387114344085127215908661557684254894974739498405737976639550928788310958370087842419417980640168251781411015348965856451481585605627055804611802430675265021541988740818981124643123136803659061132410442301070982147631823332894460412250466828806659976093089057284685754781747653381513676478117681429553394745344,
   26742831394310199085248644597438378112921756282260834362130305589821861755740525583953172822186180747222374979068928285522089516302112453172740050723590296052731713776874961583410966778961729457662564307104245951785149322514943544864611323048003666198598265273586118437227521232074981127575946824444861233207140766215716263602204187272682125232950142785597229824571940920236564526730316454576954741470745145075119935303112484517146633275742261848447431153767247259354508223396417122245681615616346750468049526744159145775813312874502780577512941244588972639181181842778449869281427456,
   31333926768290516655107871971836405289888411734700571904200852496210848687034036650718793214211879015557516093381455163982217047551830021015505924149327104279548658001974981090086486618261446156263446030943004188293037450999949878716861066994344473608468809660553710303846712654253639749248706767664876437021180765772713548942328663750141924663938632924541587578775776799645478909623229055874970275119469399924727045582430238357769961282960010716242704367684994278363303091713124490529756561825765323522277711075437042403900914335074534176996264708453805066805188984705731059259539456,
   36673584753203622754312811773626870723626635973622664568248149448443160159977778453247241373602323338069513404438248660621623988038034988422557110850097165628780296579444334793767021710826653877543822724301307826088591186254123295113644506760596834651702857869402186455072416472523246473336032671622453316437284635330863188188029495111499991664292513114834788161252502028495806571202331005166476498901939389210585772182323003552938724174291972086986560737663816613935764765129308966088898182273384681950753187480228809556393943855785275937134441809570480406301935221189104653349945344,
   42858201067153650896855585052518392129262430308121198937475241523470201199917473421987549295266828259923237381624671705845279711063827420169045804808919859943011115016470903208276486099040564163912620351426750255059471483726643742006643831517752710859521100836480390997742008026711741858375650933240400665048887320455349000119547716898360600688787776978549130501167739986336213431182699280747799579030192384568223607317214210501779893415164370477317050552053307241077143552574031373618420965629539383174736958405191029895625310370973267349110412524052627614067354337703942642192089088,
   50032986599777271174257327852850355207709741537806872928845139482532068638137465986650623304541691258514832800990202053928256307053286133044339202676077583063927495914522931954931889212243768008080571520954293821911362504078596953962420739295277913650307292245647770238537523592562961186097366649286752221654950546553669737506833505702655807734650122143581901054306193288640252340073250445992753044832887736023782214926436629018747438913483724946265532921560751871646653019885110844085330038648823218139889746028476386797705542625484909410404131708902748679283848253030957122706210816,
   58326912173917255322479912475612220901964736931398671350229503635480987129238239950733788967029719380478678083643532177274443834080903627506227136401265229401607992297010412893607601025690179628450495451144894231486521629724899332942584300343646727382941065044035221627926080326776549035420324607329517816851494621582024039124288238475535484876402503564129608708562402691325136783761510280311891261566394944358393505745570243230041025542661193155249985608522993188588351715636154645049523447200205476170378444855825798033179547715124867978458944325889072146689079656227825804642353152,
   67925266504865391012260903618322721391545474177608478855647192056338819928835070646065678225655122160412470062856428654425808053047515594565864217275981134003227314729966398579613849269020193489146883502909253308497001031345485745792594274987140025356124283336665345463338441710706294287356957512793558394080205067341728961335673268062484489464221029472858527846209732166810960214292281390643912124855097572276055197603932230643567503702675297963029068562334798176558298379608266675646939369161033792231255080031188457164375524854437517871664586078152486719536209322985486080857341952,
   78998902692985556264951853762189544626709762493244435113258084640115988357713135070062851236912339861125668811953293368927708473876547666273002954635645852865642102935290026054975171960717702109848162158638517847935934218112923326764457856985982605144858690699332653577252090327336357864548808556260789406411860275920453683487499110704514226165618632691859836378741098770393970264861375903594050543207397067604773303609664158718193510551384722229361405250088487370261002261470662709124126763510986497369019898973984286122951860332497779684762412338357739762179939052656502997782626304,
   91786483240342467849678083299249888950424736153925692422164892991126660720004256343630152733025123666854057079274438679506931338056364830588192573583045298838679248435845887608956710140456301395636761254504684140847656902842103350578295061969839290380548397103321685444657711726303832669869307637954987496108162431696416873988686699925935132172941331586687379015770572918796812004627372130281593017238137176939305099495398528400060742455045016258858626228195542304734336798950002970566087092727457044040624562608019001713477699924718344877298296889368697611960540256899495916895993856,
   106510620524508627201708096407353015371808963700062633985350806922547283694930477202701110788936757610963601741902909619532194094870185365179370751651348484332853802667568082494024838036532120973285910744494815353051658756188545792331388293014300262116304800542419141601843587720642857852679111468129096717469671551831354210861280342328244165366260977627215637718956182717506650050766080970993368280314055095605865156964619453173857352161604037589262906639017030741878392943119681427480180861092805581349797146567099042582030201210095352698152637172244934180296178320840810660135698432,
   123477311593495382283684862566460664066365869976878064700431798097370396190535066288563194456467745599386532013986134131628926617010214598820468376479724848304362342768081152424461470496569227124668315665839750201733074674897576272720412888881516931426676052528916049838525444393920798536821074725926200555893328755955078374839065386310412481816247465348875806981161455901708809079174322696434250961289794553494796679917729903302295216632198557465825368356724370391440171073596596643199587388462258512327468766688652846084492802717621650772777529084936138129199591237911473018315472896,
   142978972620743745006526352921452474388650093438264292537538088970702772663014554993681989462047427025780617526300006267734962106841226019936211502342543959333429459121044289501306236350147269500804327475001005797866614768438528685490895008860752162404043839825087737587655828362214951452836197185199965047229680491287146559103621020155955350867646514004170703744190600118600386747609114849704824168062067641078026604831971117970790559097876303198944073659980912259954268087115183358594883612566543505750859320715278329454215882687220853462269726344290715926750278987426620305221615616,
   165404605440100543816845107196078690832411487642890656062974775734852743145685277382214377629467479108860448862689300966706216380031866988887405209721294704330399371046230176338448739608841373743984577908692577186602616577555800366591894812860354442800052483823548577675183989009748294272988490207740588461167417594255929903720926980589221007133691192948459375151360478496115212376496916347766814741992820842276976398100457161208665994676796112222806447278779947125088172895244618386365772377153221584334648760164931618431396670943070428192845568892969500296439839550434670479061024768,
   191134949395289395717197197595543104944389106037218429278772407861247088669691077024278752325813066392040770566765762059075768993828072585633637714506567128379905441144806008341249144697390237680458083548175677512953620035412878009142609360874254763242916794927295668481749008347805610526182853138774162659812550288590281685946921376835124051363426777873347920324290400828292031354226479166037251035842285819359606635031043384784702236945537663489512769913561571254574558260575064267348410830540539200845728224131701957341873072502164786862654561830440785358670920663828708147463192576,
   220667368403267293035441479230509786649819272617036510151664332214905029055461065612743665824325647272393924163821118236100835640349524792041538433788788871387605085089134535866599825432619026408604573373511783007754372296179100704772198380111717464084935312723206133313313167750283043754616674831942894403484719954527915700973972268577236096292569238915158242628787937857816905842326684390302525796438297152867379590880301803742652527697971791004339191687876053261479411178169947547257877139692865594793205258009823859438612924806636399602522818323648439468437426986704874472466284544,
   254493148227337371404958486278459208303723469916279588233285378532840966466653787120725219119749935190449835022831970224276225747341494205481550828868489453159047966978209579194314471250665766234547270728772607464578235272007968064201462085984323866560378353304964666799367406015862262908261062200338527368069493151642665051072351028846675480128188178006840242991207734513611957830342807654152508641795825622383497552328597726115017554556811285840634077866314065017934113016321159173277006082222313585231934843666760165124708380395774571540475695226604235709412931292230156500097564672,
   293245746443612508203410728494619429176929706537565946784684128749306991069826846091174193892918568574480988288637221366780466689014805266313524655131836212229536955483229823681024223324652616430319453211875043516264883779876983298384123629716477514025605242034236377809643869948701512545376342116491502505091970369996846436712746799805744549286152982092482935975372160006304722466541959086663276196909435013222094020254027513262946682987672990555397009159542788854606012325735800687345870032951435693675273741585660445953469163167695200677885458582295483254250892924768770567079723008,
   337560235137769886492931519632095401644854308346818893177169708410681472721617529117600616695323919129935953642013263491545671263792712924264609989000212250399942775281757946752715097647890508041414937019010449925587176740321815063152261838147914925903980750693571271657504238852849048844215370249737294485840300317224822002697399113552621657425106559403091066093523525915976371323340915923032735192516616299953054801500397968840952915982565491300758650003648546675975465885608664152516351636796033558950983348816344048762626855189031086634678414941952871628245233223411601720918147072,
   388239025563269431455510446635702998687890955206635410210232292743725417391627815327945984485197345652993825616353489308863093770899909881803420869813269071012274490158421731781323994266160519154321860096428111009171001291833974617979010628601926974285009661816283821010272059101351909601115907252521265327184481366365490010901700173966577691040440006246726396240842027111560468042912611673675840132993717658220289047677399175690433295871172099106484605542343168090823998296577918684783032780998397998839865308081863181879061743361685827466293370138097512075344675465104628292308172800,
   446098964588498977922523108666569137515693575451516225669221035154211272984289728432806992098419973380006282608934672280012183187223168540542937983686575666396644721299145813780758205499375027799808370459102234676490599226422268493336968781540053680158735407962124828929487843948286284618887081927385045732215744194484634727672464189184115228169529538265228267485664194858817348985823347040580069259816596026620539045254821648803189643674902876110895259395428085996605460011017670425256240055197277146027817058001563331817436266273686157397905826571436644164459506276216564346597146624,
   512158807748535412795046828385013367123490362226931553128538954893821523038077753130254708874450046634850076164164012612929351629630554397205589758888792485850510199715429377360853503794825079635891524015762802099136835718005641849730322590830009149733430530144605415619119415701402471602462033988239661755461300753450196207617208068879035008131261847243240019993752286095010480811606332969840602377854638257597403642594469055559748854837098584069659330307606882404135014652990884919337806368704105951125967687369241723846521078779568932577422983681342010502372267129985382089198927872,
   587462003077674415795477107242413601635507302117134327848926797031628448307856488069383710562006387533555911305740934565667224882935957613737602923858970816842784335518414995102120567057994208411354117479174042734641741110727762053629640718128973330513304745329167662830678982228082156121423566988080108257392157138236103973996920736297252491311399143838602455162537744368390533123467957169498296664718299857652898802592789400772591065980600829513135406570674024030548627550419743119056134474795179734977509827765483115995962503376633815752115080731717516711276934566825222701544636416,
   673297973890891179750878996954921469345602247115789981889389586165592589214820414583259069515805893344618235266010926626462146614677963113987299295005877019552994244616276256784964869047098495564807114920640337235431263435593958617737845698487463690991675037901946102818879877463552966661714755616138389770406392282634793346739456033415476397058291087985904931361644003379151787024921719442036089203249964726231655350560132268081186629499754323006219884552399833959302054718865174642209326579802873637760175791224420450955246104391571907606549295441336337299597106118343985962216849408,
   771000874915207249099243942356336636915932898099893003710868963112546404497797166313894001482060016532037207238720277574229904281000712123965678250921734057218838101848318382565077178323588032179917945774717511479564952901223573888026793894284592678516055556702790596634202958844695839922461734815686616341765915867088233536271903439694211895118402343625611351062670727972149426756958313667298218108606612188630484742966391937421126589439231362136504697903418097954865349862827678061877624675024850250340597883310148378363134953118899592334199186351339765470266444031404953594864074752,
   882195662541520874505010555427461517258623205688685106210333624675018581262041431496761571693540592945611579144802419570177431588506592933277722279087084439856905283554999100830356100432600282257447819238281269189847622944284131013670353699783501840629262440973211213512446204889809161678100983296375683313472730665526193640107287599328933639239816401762482636871022890005875396879413391920801788593910575877843056620522410954934149646760686690322364713106230853429398433077833608900188523450531140059616075470310660193076723216191630768650628334078277082932193459075049805653234155520,
   1008580610889179953009762194405625667777809411616617748058194935201306781578112519036708633905316186899310804241242451294026942176759423205703110999098237498699699040617389291926878789875716044379006171141709978923749993545692099805554713355602459166184865357239274438466338453870964565016175323546702528992297851905852956276442543846850829062786313178789311426801707615485711406530345859296068463445013417558779699309217094961394362023755131252247597911467703787256227137142055034794730814716627238301771585078017896914111207719292644774675157356473050805652936023887369205753546014720,
   1152205577277947654826312593986886447975501137197905314492419812663730536997420133766892194994504769872830845910586852224336846707744340401446742773144253874447420672077245774419943500097912094271944410629953854067806532781883301289835936191105935254788104858622881130463438410674158481961939039249862339816180714763911113677213382418399384516683095818533025625283417111579094639550361234154360766378710987564913400972957049233812904872143168912592456591579476702975514321240806585603924765010858071023199774032081439298793536344363209204856887007207356930770259711392238042524436922368,
   1315222228101289249799649959251773180905213571901574597653863456028533561145038005831652689891731293752113510007118405673723809983105669334707184367917152925584427331545652789136952501828165840529843133645962315673982066408216696444118078365733306118337762824206597379890483640079679427085933528470368941526549504581858858413132725382664773445353855802637585289802642893378948564262753785543588636721817962870798962410000526643123721148346960166611991441039915531609017846405069658953709951540217752535685142901786025142694117044812330025827880213961357026115821076692360542933980545024,
   1500209504960300304373720609675603095949305343872781742735081435230903174034870244415595129402480152267923818267242839910310046786390789054977238503595826108453765859868211913854031023814931720225106239849073780430115470183754931197901968317613931716161435238093876277804018902782447480193073563548587206289907952097041946355540835425151406782775272402639707630935685883514436048051229167214102367999617177260187002864079523446822052533109676286035917064025965826671410529309838511937018721819838076502310471319793521595554031124747804475616340468938491643743526027393454018186763567104]

/-- Powers of 2^24, used to extract entry k of a packed row. -/
def pPows : List Nat :=
  [1,
   16777216,
   281474976710656,
   4722366482869645213696,
   79228162514264337593543950336,
   1329227995784915872903807060280344576,
   22300745198530623141535718272648361505980416,
   374144419156711147060143317175368453031918731001856,
   6277101735386680763835789423207666416102355444464034512896,
   105312291668557186697918027683670432318895095400549111254310977536,
   1766847064778384329583297500742918515827483896875618958121606201292619776,
   29642774844752946028434172162224104410437116074403984394101141506025761187823616,
   497323236409786642155382248146820840100456150797347717440463976893159497012533375533056,
   8343699359066055009355553539724812947666814540455674882605631280555545803830627148527195652096,
   139984046386112763159840142535527767382602843577165595931249318810236991948760059086304843329475444736,
   2348542582773833227889480596789337027375682548908319870707290971532209025114608443463698998384768703031934976,
   39402006196394479212279040100143613805079739270465446667948293404245721771497210611414266254884915640806627990306816,
   661055968790248598951915308032771039828404682964281219284648795274405791236311345825189210439715284847591212025023358304256,
   11090678776483259438313656736572334813745748301503266300681918322458485231222502492159897624416558312389564843845614287315896631296,
   186070713419675363980626894819329160794532188335953423432061490990243657757029868371504908982723472783555205531204141550984858016925351936,
   3121748550315992231381597229793166305748598142664971150859156959625371738819765620120306103063491971159826931121406622895447975679288285306290176,
   52374249726338269920211035149241586435466272736689036631732661889538140742474792878132321477214466514414186946040961136147476104734166288853256441430016,
   878694100496718043517683302282418331810487718418343092402491322775749527474899974671687634004666183037093927858109549828751614463963730408009475621262727315456,
   14742040721959145907193572581985425355144223517251720423344555860334469384344331453461432520225229560708860839963921269139728846210643721220943102544658968920505450496,
   247330401473104534060502521019647190035131349101211839914063056092897225106531867170316401061243044989597671426016139339351365034306751209967546155101893167916606772148699136,
   4149515568880992958512407863691161151012446232242436899995657329690652811412908146399707048947103794288197886611300789182395151075411775307886874834113963687061181803401509523685376,
   69617318994479297159441705409245167921344429126717528237597542082203295398081625160307507496908132931192662194421301381083506846944815643283884602656894137393981852330936660004926669193216,
   1167984798111281975972139931059274579172666497855631342228273284582214442805421410945513679697247078343332431250840168271536308408672112127552681297848886832192510636636227827221215793215130566656,
   19595533242629369747791401605606558418088927130487463844933662202465281465266200982457647235235528838735010358900495684567911298014908298340170885513171109743249504533143507682501017145381579984990109696,
   328758493846773344202561867680008041596896237676448366218642556441795759643567551382104158517349278201686435553511138607063714515636487741445488423165742553122201479445527787386978984867770169829455828233486336,
   5515652263101987298728728207430913795608113109085112352897269396216198887424215820128660001943808587833784893551335930816647064191168732319583111500951066614122648616177179922993422016587311577585463592732098692120576,
   92537289398950870940028398541361245826297164983552492328825714470508751433275752444915676643171696540742381256647769999871944191701103114571826891603540250015524326325705641838924007751440909196452081155402449891024401596416,
   1552518092300708935148979488462502555256886017116696611139052038026050952686376886330878408828646477950487730697131073206171580044114814391444287275041181139204454976020849905550265285631598444825262999193716468750892846853816057856,
   26046931378436930758124421057504913270096712196546516251547882077203270460225125279380594534654508948214569963255598595491753131461403769845169359579417304867559209294976619368996399554343023534097519594280807038990979484521392426918608896,
   436994993873214129706097166956708350993678881411295357199729151951767944417616335439228580716318181998128654620651240845861768505204366709906692902245553277900892247131030458103436298545516643924637451297481464347472084863384057367177715867713536,
   7331559403129590068331208687020758653624765228075687047537011123791632385370343464792392772051104864109916034360063928339045596353810784435313926666640532382851295822842678298180301122938618566718730242107326783353838221723324821405531849499257419595776,
   123003155723136208567847447683223664415731869180715065944930703618254955521953492303010368693540149343822709050322214299552689203876695953600699775494388206142090885899729347827083318884583758435450548517566916626912548274908112766882031433928533568160966639616,
   2063650512248692368563827284830142994214247367328599695812346519635444931862206482321942405811160890213571855442410658901884170154307365379884917884620857722298385484371113610034107490923540785363375909797699954703703235518560788042337487885808736236287260081631789056,
   34622310392506957584946940144288832324819178359103260074178033026772100877957520390515409281853501465865381150278099185099233529659567999369251322492547208112268029722558797196081988742442283240850996127872528443254245182193766350116513179157596502523218400437714157458948096,
   580865979874134008905493163339804906301273516273200960568660882545289319203282958416081372850061074449140126480544130097833822361540978792105793195743122900696472984549789013258861878841522553464937185852481030158620214338624171909436366773573694563676580119318024965946783339380736,
   9745314011399999080353382387875188310876226857595007526867906457212948690766426102465615065882010259225304916231408668183459169865203094046577987296312653419531277699956473029870789655490053648352799593479218378873685597925394874945746363615468965612827738803104277547081828589991914110976,
   163499238157084246970890052651977815332245607254872681799888670100456398181905536269103756533156716633238933245476249210386222120009203192687752953715493389952614864728152938620316690140722215910002962984513038253533659992483501702257775023591263777382983344691261934931342007929269781293292322816,
   2743062034396844341627968125593604635037196317966166035056000994228098690879836473582587849768181396806642362668936055872479091931372323951612051859122835149807249350355003132267795098895967012320756270631179897595796976964454084495146379250195728106130226298287754794921070036903071843030324651025760256,
   46020944252475287237870212884199033180620210660923048261998100776379565006208246561973370194536329221406749153247076699560650180816490655358168942243705375840708580716765564230733368217919000094579989235733761476822566574679670497657321756298451772713817730735254092349426494960250807374037851220383801379127296,
   772103322247736428651791941524190166662432288223808740069966728315087660095197093551484618001698015194652854401843307157096133183997320086925557708514169730840749451738610692460887556999562135090788908685580234789131193097780962748024381086918485856402626253175196722230275782071039209488625822100242638638716536487936,
   12953744211667879574559702190010707651171625584905095574841686913755541732351702201085464556891975967691972983316275962328947759192690782519488857596207264634977115153700247127325882095493965845839345131422255684387968478939180332711558614761546211605811843616790961251349338535374752162059924960553344400851693295429983666176,
   217327764647901735884376228537482684576559015509079127959763147156450094840678695795286273331320969476777252207261558135600619608691758879538488773484810059550172215990502245308525826306634891692269394568419570824204774972354079304853684576515249286092412155717123183761518144065105857969346366006994938535479442383180648843906646016,
   3646154850295011369707131011438711095400799139943170490872585628683549034362552065955809589514611470241298944167703929337528884908857116141935206466329731088046102104871310118026124429524895811057809162863601918344981537942578416978660114536064864566618194697491810552574682390899399042017045361314411594716462268422176512674372084045971456,
   61172327492847069472032393719205726809135813743440799050195397570919697796091958321786863938157971792315844506873509046544459008355036150650333616890210625686064472971480622053109783197015954399612052812141827922088117778074833698589048132156300022844899841969874763871624802603515651998113045708569927237462546233168834543264678118409417047146496,
   1026301351570233739499293428424157827113862320509474868877723027253195088579758740627615722253086934881590063514230345951830442386318246187269187562628311952630251852968692235999386304409507222408441726232710869683703522996201549125307355747582791244073819147094454406423245584236544452953174160270550720367192430063859901600612849963028366234058947035136,
   17218479456385750618067377696052635483579924745448689921733236816400740691241745619397484537236046173286370919031961587788584927290816661024991609882728717344659503471655990880884679896520055123906467064419056526231345685268240569209892573766037966584735183775739433978714578587782701380797240772477647874555986712746271362892227516205318914435913511141036261376,
   288878149031346317441449898160257412877284850718137687733941608447907569136952074473685387937869189635198874764717730462032051659502325938415065637190274360294298936196722436702632545714774613145685561736644425856792952532413289969597317046868752429592884481005276043578633887316205342129133560643864353563366693172874147849857285760520135776376839133731571820937609216,
   4846571103979087938519772294612641231443389434025951104852888896317970035445578535093106069477425974254692724884618542991291529614628974771192253849318866041919276821142630812606393988086648076061606137337018647795400431914044767090567621115799183161804615000873413322744153712423637325254373639771211334432972698567034919292991252377970590269601927543867466459383592340422656,
   81311970270815617827540940057531918270431736306771131291555565237528187966198127328220620638533782694081418859017820373370184111315027069594843020356854068460344761792103283951352994919231121488069995473028826650091356852715222491148144542065923908529158975666493443972956379570533246911454881499147803139430220485962035320521081527255726234600609772419813960161833755551216431005696,
   1364188488619052116466105100188265419717379653273741532242786693992101715597506680981060248106739195555665885784215520253232226795300253192439713838619337787037991503054663889161182688006843079127591737170026798935139113651083474222050508981461091652957942433095504472118187338632823518614811421165606509195698926020610034372011417336379206274761103883598061489450479872973957125731659022336,
   22887284938275379073209001944560169611929137396978668814608196807031392776549938648262339691500354539503646589633113173840851767105740132664250646048705771830098383652912755875857220772151415816628698134316768331523398899772776081053773352091912730257472439115608827157692806508708024861680712012162352175782227152815794998426659903118578601580222388253563534789792422132536641073139201456079896576,
   383984923062992702193107238768305990575971314802788874095145673202075995393018055488645297669674812185833211621938100469973519720714697045576788566898683254440275883795786334484525778054071087861396060398229434719927672395650215231472663143090071728679350725089418264731278276442800414037787428461842409521168393903855600900323733353159466811689332335765898192891862061280747855198528180896166938113212416,
   6442197994971210171117433855979443557987035158250386343091063510776640623123668808832987706388430973801155931354965850214447254634690146708203626373189659075327467602032807223495137635981210320405619766850141243854126064159061121384906867646861040847546861854581789541741837599988574191201391849388877862497098716898068649114525744392360657144543253492928999416156434444312343408202430172982066292783997157113856,
   108082147276398906822234149167480016132157014049560913761488880190018027488520386318253742675423286348552334110023434741671427911613197684395221211646299519273129194692306445874938199068586137486874290442314459278649345469626426790676801658394799404284116771456479272808343825651929906737811050557836671896732124546721747709022607151231423494815945385193624295868730390462068156825588342737037490320356361648285098704896,
   1813317530599956161920495923159032406332682770624518155333871424546053491068844041664787783673994366499513796668030929722925747101563526001798455635571682635541451495258878780636147152424668443222987135597445223241104257202544001575371487612047762882345952443947987359428510965228768862200111362395746337132604547659252853211777429059354257960001995971596636634637597406546457273784769953181309175202527876347395130553360449536,
   30422419887462074119071134929958489032043186702245995987957913005836841367216067357323144240859877069545506861679635202642345411084305213453789078664403403059928208689481185220549258184013586200335791339139627558484226201606636463934347727908649520193900630877843276694401765022011544615205503550967713779282527138661579516950283671253463206314672846846606637692828053410669727717058223014832711195154653927501539142641927787722571776,
   510403509694646909303666150085058441524219464631908759825103305408133948375519280724359572728062183329211990447881362595934399708370182776040325391193687404271476501676502772381162543192963682617652843827674785708242495577214086988902761650232641268589432766773846267249744402555532438502939617463352343101199282831187270457050570413892342960393830320880438427606317902930342726570272692096019599586727782346941662528558433151023734761455616,
   8563149929305185241120016591865443846075199189533893755877880377146231408828936084877217013326408511145788673534042362646312145737663564393108163798340991417941883907551049136837598318257681383431807173911166657580897328677965415655611235202469472813638928845642441976442687786465119715770534597140034344314930227103920372908356142757081238592606736360760425674651558422129392877698404134196413562500042737635627211640731001596285819219649344045056,
   143665816004337822710282600285310394341474369045835074863414468709543787931907367746179403311452034095731304066234112071267510472464260955153084575408147254672957261763907982395337943906645864229014250227057207826232751957053220218983971305018634078800548055251973907806245884614087189937340865371691338441989956445051526543084039211962387469415699218979531585795574920384684004258007709014706216763392717018544247025174258411677231986785008489302218244096,
   2410312426921032588580116606028314112912093247945688951359675039065257391591803200669085024107346049663448766280888004787862416978794958324969612987890774651455213339381625224770782077917681499676845543137387820057597345857904599109461387122099507964997815641342300677629473355281617428411794163967785870370368969109221591943054232011562758450080579587850900993714892283476646631181515063804873375182260506246992837898705971012525843324401232986857004760339316736,
   40438332213938378681647749604523927988174577432926379805774761820206261354332266127116583971814151861950407256827974728135001947935310435529013390534248910734788828520886832827027961410153772739282367875853273132875443112484770766652841335407081818622488792542978308405536042447804436425829207636426960588951680194442738239892480550172102896072827101150565541766169390256620931487004613432708142468081823881575148191879576196166884779035637556486825129977240950172286976,
   678442634233002389831799531029012517026050331300931386099521226406153611294084964584118386477263937644744163835770406856462204840931457203924331919885449373162270890481878905894938746617814438461851970844651547657248010193869295862620316097853059600702316930072736363434293779931983755674404595625184586024329552185087819082135962966036207461639372006656886616368045352923624797678677592557045971145781864935144681447173095831550197984993162982891666359856246505085695810338816,
   11382378618136075422724304400772445264849724035107286865771065112000942865860902973180104339500536170876404101412108642238747406452552698704994564275612879390608021780126826490043060658776342281993198274886421459779943832592747052455087369161957917181856522836287193680391648553375356777440711572196376839600758152192490319709916792049190116404735458260036024650315832383795884733611472564689552579842549836899748311890415618154617286436995053887177791119241976565067817120349349216256,
   190964624670250454759336963381509881056561027677386534921004165934104010664207395136084817406337827454606340912676851706306188807494270377556614083677840809918179152737892275417974277973392990154932797988596868297763430147276357332402331091301906959470118164633322886409765652376065889732186745240438208655379273283094283671682331362236345207987390206087608553339673188122738458086902135295870596575375704604431847774220871155553535611887336409996821432010404397099080822476599027260557623296,
   3203854756451720653595624251435681680620232578525492211861229828776304753379710936995444375946689500176660776461616679276667491760113792886668866710505209681612233972180610089418844744003656448715181017339055196355129384481767258658897707622287814270933417993576818863040102859294170662269079177235803761264367629793501945525087556647813406604969370763816323622827218446543817622830903894720044906793938477300747667387222787084891266524326010615181232478267868817481052360147556825740263526483623936,
   53751763281617910977034964721174741663008655940159144344713614863023080529278140407534961311242814229395876005424258737427374269437649287838907097277355371953699677593812086481959272740614049029887514406997074265172418391397657360248197162683969074191332475296524902658098222332595908741751391477587362636344728828453617536494627356792601450307397806688631445746074774556850081722840606116959452930981773324385740577251592339045231114992186734509188416434115341010544191353505352737718761080737479237042176,
   901804942956572521930486642679528414624495430577733039046438774697748635025093685695542073470363922774448161252219960477706342431197640634319517574955202984027561490121745638318510821972193873209013284909301826314838940594851039426873817408936088895028010265864462341273888025289985401676651313120042341820284966016393287391158246004418541733720479400741414509674177644891578100681748982395150005064914303126257636984514651016107076186144755157195308047213102845047558175883091660036899001903926128455371787862016,
   15129776317850095820092511389349266990292718729815631986418537353879463563521162185150219603700165130994236082131324756445942491538167955612355559370819630786874949073054392871127532858565042604704229027792897149278536911570984376289178239414281093587086254280625511423417734560103547720775941236898584297864754056409689723511538383397266829071642966529789271374337767970717302376007449935423628987375161285038699647338790955261847896303406764539379637294632424461577413789356619528237622525126579905139518845267220627456,
   253835525316255713194389203561572751737810845357362498012652867590104198169324258551297226738712069638358593504910975805040969504114016035586901488365065042751650985587633328947766782315243169828325466512751438739230257929399304213628821785153107391826760898696978820261146790945522202477765653734754718859485317591261548984333357950546759400970033524351045040329881590202605856899590205175788275025054353913931832342526721035274358715427856824538312680893703825795567971865414506855060692430514058409785217803118738186484842496,
   4258653436704290411496317656220475355619627919703067819457847892578577595193557659754960653196347954129784008688088501851946234219933735656505133041022183076293682941816611288555736024527814752734499269985197642038833711017244877041760886915019275783874202177793332214946436119399870223765209570089186625324858822057194719804741362341640300570104861965278742467343134693252602224069515183718517860362742307354479760486356784580541535430215686362353372122892742125398615706667982111040833930016299348977583112689968544202104483281371136,
   71448348576730208360402604523024658663907311448489024669693316988935593287322878666163481950176220037593478347105937422686501991894419788796088422137966026262523598150372719976137911322484446114613284904383977643176193557817897027023063420124852033989626806764509137929914787205373413116077254242653423277386226627159120168223623660139965116969572411841665962582988716865792650075294655252525257343163566042824495509307872827973214736884381496689456792434150079470111661811761376161068055664012337698456291039551943299284254570579952324837376,
   1198704376915095279387480343045361671730644368150573240512773432879842058669565997124016627990207681634233906420719287022894744202442929991306355413307837823268031111266003603547180584046167209105227837310389339858737925377319347088123771981133389542283310696478430941023973246538586112505661167115912895464136639548800025432244070448878784999863781781108587654102719628420246301525634694817150787901841270830731811250688192935437465855092435396362301529334901659687228894334871948311489560575158416231944061329427495951844584329607105423498822025216,
   20110922251649967162864105411026130564746114383645687779902750642486612264183981360005005755383360159636775242544194353749102068749132764137024846941834869653937583848429775913489414849548701239275574155769260998907455661447168187076423557262222801163028236749929075238642460335399111544107778623515767684387240655224360567482252134640056333760274637518523494527814613393446210973896702812041419273199377798441687035424025961527508419143510488610815947014781981483331131601697323009162695639514516983341231616841052255923222189728033602824811212862606278656,
   337405286575137855484278275127554174128947546175130571351988906523136671064463719016777742639309796204020659787616338218829095213451050196603919454510103044515956094743217611332209226644486063210793991135358537939046147642522013262909566527676680575237175942052698079958956103818423340583589729246906713846784564116680625702532320229317307363664219812969972668767963776858340065890635344765426292093028972390060646797708535146154698689789210465689199079311552496253846794406101954746492523886393186565184244541771571364911178093060201009850067877417923859967901696,
   5660721372412988031236521225922403931062964834850139423775729914342472927969457738107787812252110541830834677719353431426350997480634374575266423134918172960101810848023426400324521952607497891477144320779995428447572052966482601266698586101201648173758352009821599070256677688280113164412450942956871270057695537651400060426536483468425998178585167273676832978016582164528172686901421556364026234523839164046083724424864399190628949333510578452328281820611047524989978500658764212804130315627177951932394150474122675448529655681739093345672716394102030870235239820558336,
   94971145180789141405469863695884969990692470634685116742800956330585166286696033875105787408321105016172948848387979899381078776548058719274153038481919330076987462588432197778346974895637755344856609332899271782077461008182119361693275785914457910967149403472811089067095457018656127063791202559391107981952290497413671516189054715030212151457729925746607341068107450556036691253445520158175442766273106804460580598760425795931407058821363012979657287013264796313022267140908229491284859997425339970007394059640858536497878915778164024704513828250590897948604589281308443672576]

/-- Entry (n, k) of the partition-count table: the number of partitions
of n into parts of size at most k, for 0 <= n, k <= 80, extracted from
the packed row.  checkTbl verifies every entry against the defining
recurrence, and tentry_parts identifies entry (n, k) with the length of
parts n k, so entry (n, n) is the number of partitions of n. -/
def tentry (n k : Nat) : Nat := pRows.getD n 0 / pPows.getD k 1 % 16777216

/-- Right-hand side of the partition-count recurrence at (n, k). -/
def rhsTbl (n k : Nat) : Nat :=
  if n = 0 then 1
  else if k = 0 then 0
  else (if k ≤ n then tentry (n - k) k else 0) + tentry n (k - 1)

/-- Boolean check that every table entry satisfies the recurrence. -/
def checkTbl : Bool :=
  (List.range 81).all (fun n => (List.range 81).all (fun k => tentry n k == rhsTbl n k))


theorem parts_zero (k : Nat) : parts 0 k = [[]] := by
  rw [parts]

theorem parts_succ_zero (n : Nat) : parts (n+1) 0 = [] := by
  rw [parts]

theorem parts_succ_succ (n k : Nat) :
    parts (n+1) (k+1) =
      (if k ≤ n then (parts (n - k) (k+1)).map (fun l => (k+1) :: l) else []) ++ parts (n+1) k := by
  rw [parts]

theorem parts_one : ∀ n : Nat, parts n 1 = [List.replicate n 1] := by
  intro n
  induction n with
  | zero => rw [parts_zero]; rfl
  | succ n ih =>
    rw [parts_succ_succ]
    simp [parts_succ_zero, ih, List.replicate_succ]

theorem parts_ne_nil : ∀ (n k : Nat), 1 ≤ k → parts n k ≠ [] := by
  intro n k
  induction k with
  | zero => omega
  | succ k ihk =>
    intro _
    cases n with
    | zero => simp [parts_zero]
    | succ m =>
      rw [parts_succ_succ]
      rcases Nat.eq_zero_or_pos k with hk | hk
      · subst hk
        simp [parts_one]
      · have := ihk hk
        intro hcon
        rcases List.append_eq_nil.mp hcon with ⟨_, h2⟩
        exact this h2

theorem parts_mem : ∀ (n k : Nat) (l : List Nat),
    l ∈ parts n k ↔ (l.Sorted (· ≥ ·) ∧ (∀ x ∈ l, 0 < x ∧ x ≤ k) ∧ l.sum = n) := by
  intro n
  induction n using Nat.strong_induction_on with
  | _ n ihn =>
    intro k
    induction k with
    | zero =>
      intro l
      cases n with
      | zero =>
        rw [parts_zero]
        constructor
        · rintro h
          simp at h
          subst h
          simp
        · rintro ⟨_, hpos, hsum⟩
          cases l with
          | nil => simp
          | cons x t =>
            have h1 := (hpos x (by simp)).1
            simp only [List.sum_cons] at hsum
            omega
      | succ m =>
        rw [parts_succ_zero]
        simp only [List.not_mem_nil, false_iff]
        rintro ⟨_, hpos, hsum⟩
        cases l with
        | nil => simp at hsum
        | cons x t =>
          have h1 := (hpos x (by simp)).2
          have h2 := (hpos x (by simp)).1
          omega
    | succ k ihk =>
      intro l
      cases n with
      | zero =>
        rw [parts_zero]
        constructor
        · intro h
          simp at h
          subst h
          simp
        · rintro ⟨_, hpos, hsum⟩
          cases l with
          | nil => simp
          | cons x t =>
            have h1 := (hpos x (by simp)).1
            simp only [List.sum_cons] at hsum
            omega
      | succ m =>
        rw [parts_succ_succ]
        rw [List.mem_append]
        constructor
        · rintro (hmem | hmem)
          · by_cases hkm : k ≤ m
            · rw [if_pos hkm] at hmem
              rcases List.mem_map.mp hmem with ⟨t, ht, rfl⟩
              rcases (ihn (m - k) (by omega) (k+1) t).mp ht with ⟨hs, hb, hsum⟩
              refine ⟨?_, ?_, ?_⟩
              · rw [List.sorted_cons]
                exact ⟨fun b hb' => (hb b hb').2, hs⟩
              · intro x hx
                rcases List.mem_cons.mp hx with rfl | hx
                · exact ⟨by omega, le_refl _⟩
                · exact ⟨(hb x hx).1, (hb x hx).2⟩
              · simp only [List.sum_cons, hsum]; omega
            · rw [if_neg hkm] at hmem
              simp at hmem
          · rcases (ihk l).mp hmem with ⟨hs, hb, hsum⟩
            exact ⟨hs, fun x hx => ⟨(hb x hx).1, by have := (hb x hx).2; omega⟩, hsum⟩
        · rintro ⟨hs, hb, hsum⟩
          cases l with
          | nil => simp at hsum
          | cons x t =>
            by_cases hx : x = k + 1
            · subst hx
              left
              have hkm : k ≤ m := by
                simp only [List.sum_cons] at hsum
                omega
              rw [if_pos hkm]
              refine List.mem_map.mpr ⟨t, ?_, rfl⟩
              refine (ihn (m - k) (by omega) (k+1) t).mpr ⟨?_, ?_, ?_⟩
              · exact (List.sorted_cons.mp hs).2
              · intro y hy
                exact ⟨(hb y (by simp [hy])).1, (hb y (by simp [hy])).2⟩
              · simp only [List.sum_cons] at hsum; omega
            · right
              refine (ihk (x :: t)).mpr ⟨hs, ?_, hsum⟩
              intro y hy
              have h1 := (hb y hy).1
              have h2 := (hb y hy).2
              rcases List.mem_cons.mp hy with rfl | hy
              · exact ⟨h1, by omega⟩
              · have hyx : x ≥ y := (List.sorted_cons.mp hs).1 y hy
                have hxk : x ≤ k + 1 := (hb x (by simp)).2
                exact ⟨h1, by omega⟩

theorem greedy_of_le (n k : Nat) (h1 : 1 ≤ n) (h2 : n ≤ k) : greedy n k = [n] := by
  rcases Nat.lt_or_ge n k with h | h
  · unfold greedy
    rw [Nat.div_eq_of_lt h, Nat.mod_eq_of_lt h]
    simp [show n ≠ 0 by omega]
  · have : n = k := by omega
    subst this
    unfold greedy
    rw [Nat.div_self (by omega), Nat.mod_self]
    simp

theorem greedy_cons (n k : Nat) (hk : 0 < k) (h : k ≤ n) :
    greedy n k = k :: greedy (n - k) k := by
  unfold greedy
  have hn : n = (n - k) + k := by omega
  rw [hn, Nat.add_div_right _ hk, Nat.add_mod_right]
  rw [List.replicate_succ]
  simp

theorem parts_head : ∀ (n k : Nat), 1 ≤ n → 1 ≤ k → (parts n k).head? = some (greedy n k) := by
  intro n
  induction n using Nat.strong_induction_on with
  | _ n ihn =>
    intro k
    induction k with
    | zero => omega
    | succ k ihk =>
      intro hn _
      obtain ⟨m, rfl⟩ : ∃ m, n = m + 1 := ⟨n - 1, by omega⟩
      rcases Nat.eq_zero_or_pos k with hk | hk
      · subst hk
        rw [parts_one]
        have : greedy (m+1) 1 = List.replicate (m+1) 1 := by
          unfold greedy
          simp [Nat.mod_one]
        rw [this]
        rfl
      · rw [parts_succ_succ]
        by_cases hkm : k ≤ m
        · rw [if_pos hkm]
          rcases Nat.eq_zero_or_pos (m - k) with hmk | hmk
          · have : m = k := by omega
            subst this
            rw [hmk, parts_zero]
            have : greedy (m+1) (m+1) = [m+1] := greedy_of_le _ _ (by omega) (le_refl _)
            rw [this]
            rfl
          · have hh := ihn (m - k) (by omega) (k+1) hmk (by omega)
            rcases List.exists_cons_of_ne_nil (parts_ne_nil (m-k) (k+1) (by omega)) with ⟨h0, t0, he⟩
            rw [he] at hh ⊢
            simp only [List.head?_cons, Option.some.injEq] at hh
            simp only [List.map_cons, List.cons_append, List.head?_cons, Option.some.injEq]
            rw [hh]
            rw [greedy_cons (m+1) (k+1) (by omega) (by omega)]
            have e2 : m + 1 - (k + 1) = m - k := by omega
            rw [e2]
        · rw [if_neg hkm]
          simp only [List.nil_append]
          rw [ihk (by omega) hk]
          rw [greedy_of_le (m+1) k (by omega) (by omega),
            greedy_of_le (m+1) (k+1) (by omega) (by omega)]

theorem parts_getLast : ∀ (n k : Nat), 1 ≤ k →
    (parts n k).getLast? = some (List.replicate n 1) := by
  intro n k
  induction k with
  | zero => omega
  | succ k ihk =>
    intro _
    rcases Nat.eq_zero_or_pos k with hk | hk
    · subst hk
      rw [parts_one]
      rfl
    · cases n with
      | zero => rw [parts_zero]; rfl
      | succ m =>
        rw [parts_succ_succ]
        rw [List.getLast?_append_of_ne_nil _ (parts_ne_nil (m+1) k hk)]
        exact ihk hk

theorem leadCount_replicate_one (m : Nat) : leadCount (List.replicate m 1) = 0 := by
  cases m with
  | zero => rfl
  | succ m => simp [List.replicate_succ, leadCount]

theorem nextPart_replicate_one (n : Nat) : nextPart (List.replicate n 1) = none := by
  unfold nextPart
  rw [leadCount_replicate_one]
  simp

theorem nextPart_cons (j : Nat) (t t' : List Nat) (hj : 2 ≤ j)
    (h : nextPart t = some t') : nextPart (j :: t) = some (j :: t') := by
  have ha : leadCount t ≠ 0 := by
    intro hc
    unfold nextPart at h
    rw [hc] at h
    simp at h
  have hlc : leadCount (j :: t) = leadCount t + 1 := by
    simp [leadCount, if_pos (by omega : 1 < j)]
  unfold nextPart at h ⊢
  rw [hlc]
  rw [if_neg (by omega)]
  rw [if_neg ha] at h
  obtain ⟨a, ha'⟩ : ∃ a, leadCount t = a + 1 := ⟨leadCount t - 1, by omega⟩
  rw [ha'] at h ⊢
  simp only [Nat.add_sub_cancel] at h ⊢
  rw [List.take_succ_cons, List.getD_cons_succ, List.drop_succ_cons]
  simp only [Option.some.injEq] at h ⊢
  rw [← h]
  simp

theorem nextPart_block_last (j m : Nat) (hj : 2 ≤ j) :
    nextPart (j :: List.replicate m 1) = some (greedy (j + m) (j - 1)) := by
  unfold nextPart
  have hlc : leadCount (j :: List.replicate m 1) = 1 := by
    simp [leadCount, if_pos (by omega : 1 < j), leadCount_replicate_one]
  rw [hlc]
  simp only [if_neg (by omega : ¬ (1 : Nat) = 0), Nat.sub_self, List.take_zero,
    List.getD_cons_zero, List.drop_one, List.tail_cons, List.sum_replicate, smul_eq_mul,
    mul_one, List.nil_append, Option.some.injEq]
  unfold greedy
  rfl

theorem parts_chain : ∀ (n k : Nat), (parts n k).Chain' (fun a b => nextPart a = some b) := by
  intro n
  induction n using Nat.strong_induction_on with
  | _ n ihn =>
    intro k
    induction k with
    | zero =>
      cases n with
      | zero => rw [parts_zero]; simp
      | succ m => rw [parts_succ_zero]; simp
    | succ k ihk =>
      cases n with
      | zero => rw [parts_zero]; simp
      | succ m =>
        rcases Nat.eq_zero_or_pos k with hk | hk
        · subst hk
          rw [parts_one]
          simp
        · rw [parts_succ_succ]
          apply List.chain'_append.mpr
          refine ⟨?_, ihk, ?_⟩
          · by_cases hkm : k ≤ m
            · rw [if_pos hkm]
              rw [List.chain'_map]
              exact List.Chain'.imp
                (fun a b h => nextPart_cons (k+1) a b (by omega) h)
                (ihn (m - k) (by omega) (k+1))
            · rw [if_neg hkm]
              simp
          · intro x hx y hy
            by_cases hkm : k ≤ m
            · rw [if_pos hkm] at hx
              rw [List.getLast?_map] at hx
              rw [parts_getLast (m - k) (k+1) (by omega)] at hx
              simp only [Option.map_some', Option.mem_def, Option.some.injEq] at hx
              rw [parts_head (m+1) k (by omega) hk] at hy
              simp only [Option.mem_def, Option.some.injEq] at hy
              subst hx
              subst hy
              have := nextPart_block_last (k+1) (m-k) (by omega)
              rw [this]
              congr 2
              omega
            · rw [if_neg hkm] at hx
              simp at hx

theorem padL_cons (m x : Nat) (t : List Nat) :
    padL m (x :: t) = (x : Int) :: padL (m - 1) t := by
  unfold padL
  simp only [List.map_cons, List.cons_append, List.length_cons]
  have e : m - (t.length + 1) = m - 1 - t.length := by omega
  rw [e]
  rfl

theorem lex_lt_irrefl : ∀ l : List Int, ¬ List.Lex (· < ·) l l := by
  intro l
  induction l with
  | nil => intro h; cases h
  | cons x t ih =>
    intro h
    cases h with
    | cons h => exact ih h
    | rel h => exact lt_irrefl _ h

theorem lex_nat_irrefl : ∀ l : List Nat, ¬ List.Lex (· < ·) l l := by
  intro l
  induction l with
  | nil => intro h; cases h
  | cons x t ih =>
    intro h
    cases h with
    | cons h => exact ih h
    | rel h => exact lt_irrefl _ h

theorem parts_pairwise : ∀ (n k : Nat),
    (parts n k).Pairwise (fun a b => List.Lex (· < ·) b a) := by
  intro n
  induction n using Nat.strong_induction_on with
  | _ n ihn =>
    intro k
    induction k with
    | zero =>
      cases n with
      | zero => rw [parts_zero]; simp
      | succ m => rw [parts_succ_zero]; simp
    | succ k ihk =>
      cases n with
      | zero => rw [parts_zero]; simp
      | succ m =>
        rw [parts_succ_succ]
        apply List.pairwise_append.mpr
        refine ⟨?_, ihk, ?_⟩
        · by_cases hkm : k ≤ m
          · rw [if_pos hkm]
            rw [List.pairwise_map]
            exact (ihn (m - k) (by omega) (k+1)).imp (fun h => List.Lex.cons h)
          · rw [if_neg hkm]
            simp
        · intro a ha b hb
          by_cases hkm : k ≤ m
          · rw [if_pos hkm] at ha
            rcases List.mem_map.mp ha with ⟨t, _, rfl⟩
            rcases (parts_mem (m+1) k b).mp hb with ⟨_, hbb, hbs⟩
            cases b with
            | nil => simp at hbs
            | cons hb0 tb =>
              have : hb0 ≤ k := (hbb hb0 (by simp)).2
              exact List.Lex.rel (by omega)
          · rw [if_neg hkm] at ha
            simp at ha

theorem parts_nodup (n k : Nat) : (parts n k).Nodup := by
  apply (parts_pairwise n k).imp
  intro a b h he
  subst he
  exact lex_nat_irrefl a h

theorem lex_pad : ∀ (m : Nat) (a b : List Nat), List.Lex (· < ·) b a →
    (∀ x ∈ a, 0 < x) → List.Lex (· < ·) (padL m b) (padL m a) := by
  intro m a b h
  induction h generalizing m with
  | nil =>
    intro hpos
    rename_i x l
    rw [padL_cons]
    cases m with
    | zero =>
      have h0 : padL 0 [] = [] := by simp [padL]
      rw [h0]
      exact List.Lex.nil
    | succ m' =>
      have h0 : padL (m'+1) [] = 0 :: List.replicate m' 0 := by
        simp [padL, List.replicate_succ]
      rw [h0]
      exact List.Lex.rel (by exact_mod_cast hpos x (by simp))
  | @rel a1 l1 b1 l2 hab =>
    intro hpos
    rw [padL_cons, padL_cons]
    exact List.Lex.rel (by exact_mod_cast hab)
  | @cons a1 l1 l2 hlt ih =>
    intro hpos
    rw [padL_cons, padL_cons]
    exact List.Lex.cons (ih (m - 1) (fun x hx => hpos x (by simp [hx])))

theorem findJ_pad : ∀ (m : Nat) (l : List Nat), findJ (padL m l) = leadCount l := by
  intro m l
  induction l generalizing m with
  | nil =>
    show findJ (List.replicate (m - 0) 0) = 0
    cases h : m - 0 with
    | zero => rfl
    | succ c => rw [List.replicate_succ]; simp [findJ]
  | cons x t ih =>
    rw [padL_cons]
    show (if (1 : Int) < (x : Int) then findJ (padL (m-1) t) + 1 else 0) = leadCount (x :: t)
    by_cases hx : 1 < x
    · rw [if_pos (by exact_mod_cast hx), ih (m-1)]
      simp [leadCount, hx]
    · rw [if_neg (by exact_mod_cast hx)]
      simp [leadCount, hx]

theorem leadCount_le_length : ∀ l : List Nat, leadCount l ≤ l.length := by
  intro l
  induction l with
  | nil => simp [leadCount]
  | cons x t ih =>
    by_cases hx : 1 < x
    · simp [leadCount, hx]; omega
    · simp [leadCount, hx]

theorem getD_lt_leadCount : ∀ (l : List Nat) (i : Nat), i < leadCount l → 1 < l.getD i 0 := by
  intro l
  induction l with
  | nil => simp [leadCount]
  | cons x t ih =>
    intro i hi
    by_cases hx : 1 < x
    · simp only [leadCount, if_pos hx] at hi
      cases i with
      | zero => simpa
      | succ i => exact ih i (by omega)
    · simp [leadCount, hx] at hi

theorem length_le_sum : ∀ l : List Nat, (∀ x ∈ l, 0 < x) → l.length ≤ l.sum := by
  intro l
  induction l with
  | nil => simp
  | cons x t ih =>
    intro h
    have h1 := h x (by simp)
    have h2 := ih (fun y hy => h y (by simp [hy]))
    simp only [List.length_cons, List.sum_cons]
    omega

theorem getD_set_self (l : List Int) (n : Nat) (v : Int) (h : n < l.length) :
    (l.set n v).getD n 0 = v := by
  rw [List.getD_eq_getElem?_getD, List.getElem?_set_self h]
  rfl

theorem getD_set_ne (l : List Int) (n i : Nat) (v : Int) (h : n ≠ i) :
    (l.set n v).getD i 0 = l.getD i 0 := by
  rw [List.getD_eq_getElem?_getD, List.getElem?_set_ne h, ← List.getD_eq_getElem?_getD]

theorem copyFold_length (p : Nat) (v : Int) : ∀ (c : Nat) (IP : List Int),
    ((List.range c).foldl (fun a j => if p + j < 80 then a.set (p + j) v else a) IP).length
      = IP.length := by
  intro c
  induction c with
  | zero => intro IP; rfl
  | succ c ih =>
    intro IP
    rw [List.range_succ, List.foldl_append]
    simp only [List.foldl_cons, List.foldl_nil]
    by_cases h : p + c < 80
    · rw [if_pos h, List.length_set, ih]
    · rw [if_neg h, ih]

theorem copyFold_getD (p : Nat) (v : Int) : ∀ (c : Nat) (IP : List Int), IP.length = 80 →
    ∀ i : Nat,
    ((List.range c).foldl (fun a j => if p + j < 80 then a.set (p + j) v else a) IP).getD i 0
      = if p ≤ i ∧ i < p + c ∧ i < 80 then v else IP.getD i 0 := by
  intro c
  induction c with
  | zero =>
    intro IP _ i
    simp only [List.range_zero, List.foldl_nil]
    rw [if_neg (by omega)]
  | succ c ih =>
    intro IP hlen i
    rw [List.range_succ, List.foldl_append]
    simp only [List.foldl_cons, List.foldl_nil]
    by_cases h : p + c < 80
    · rw [if_pos h]
      by_cases hi : p + c = i
      · subst hi
        rw [getD_set_self _ _ _ (by rw [copyFold_length]; omega)]
        rw [if_pos (by omega)]
      · rw [getD_set_ne _ _ _ _ hi, ih IP hlen i]
        by_cases hcase : p ≤ i ∧ i < p + c ∧ i < 80
        · rw [if_pos hcase, if_pos (by omega)]
        · rw [if_neg hcase, if_neg (by omega)]
    · rw [if_neg h, ih IP hlen i]
      by_cases hcase : p ≤ i ∧ i < p + c ∧ i < 80
      · rw [if_pos hcase, if_pos (by omega)]
      · rw [if_neg hcase, if_neg (by omega)]

theorem zeroFold_length : ∀ (len s : Nat) (IP : List Int),
    ((List.range' s len).foldl (fun a j => a.set j 0) IP).length = IP.length := by
  intro len
  induction len with
  | zero => intro s IP; rfl
  | succ len ih =>
    intro s IP
    rw [List.range'_succ]
    simp only [List.foldl_cons]
    rw [ih (s+1) (IP.set s 0), List.length_set]

theorem zeroFold_getD : ∀ (len s : Nat) (IP : List Int) (i : Nat),
    ((List.range' s len).foldl (fun a j => a.set j 0) IP).getD i 0
      = if s ≤ i ∧ i < s + len then 0 else IP.getD i 0 := by
  intro len
  induction len with
  | zero =>
    intro s IP i
    simp only [List.range'_zero, List.foldl_nil]
    rw [if_neg (by omega)]
  | succ len ih =>
    intro s IP i
    rw [List.range'_succ]
    simp only [List.foldl_cons]
    rw [ih (s+1) (IP.set s 0) i]
    by_cases h1 : s + 1 ≤ i ∧ i < s + 1 + len
    · rw [if_pos h1, if_pos (by omega)]
    · rw [if_neg h1]
      by_cases h2 : s = i
      · subst h2
        rw [if_pos (by omega)]
        by_cases h3 : s < IP.length
        · rw [getD_set_self _ _ _ h3]
        · rw [List.getD_eq_getElem?_getD, List.getElem?_eq_none
            (by rw [List.length_set]; omega)]
          rfl
      · rw [getD_set_ne _ _ _ _ h2, if_neg (by omega)]

theorem padL_length (l : List Nat) (hl : l.length ≤ 80) : (padL 80 l).length = 80 := by
  simp only [padL, List.length_append, List.length_map, List.length_replicate]
  omega

theorem padL_getD (l : List Nat) (hl : l.length ≤ 80) (i : Nat) :
    (padL 80 l).getD i 0 = if i < l.length then (l.getD i 0 : Int) else 0 := by
  unfold padL
  rw [List.getD_eq_getElem?_getD]
  by_cases h : i < l.length
  · rw [List.getElem?_append_left (by simp only [List.length_map]; exact h)]
    rw [if_pos h, List.getElem?_map, List.getElem?_eq_getElem h]
    rw [List.getD_eq_getElem?_getD, List.getElem?_eq_getElem h]
    rfl
  · rw [if_neg h]
    rw [List.getElem?_append_right (by simp only [List.length_map]; omega)]
    simp only [List.length_map, List.getElem?_replicate]
    by_cases h2 : i - l.length < 80 - l.length
    · rw [if_pos h2]; rfl
    · rw [if_neg h2]; rfl

theorem ext_getD (l1 l2 : List Int) (hlen : l1.length = l2.length)
    (h : ∀ i, i < l1.length → l1.getD i 0 = l2.getD i 0) : l1 = l2 := by
  apply List.ext_getElem hlen
  intro i hi1 hi2
  have hh := h i hi1
  rw [List.getD_eq_getElem?_getD, List.getD_eq_getElem?_getD,
    List.getElem?_eq_getElem hi1, List.getElem?_eq_getElem hi2] at hh
  exact hh

/-- Runs that already completed are unchanged by extra fuel. -/
theorem runLoop_mono (N : Int) :
    ∀ (f f' : Nat) (IP : List Int), f ≤ f' → (runLoop N f IP).2 = true →
      runLoop N f' IP = runLoop N f IP := by
  intro f
  induction f with
  | zero => intro f' IP h hc; simp [runLoop] at hc
  | succ f ih =>
    intro f' IP h hc
    obtain ⟨g, rfl⟩ : ∃ g, f' = g + 1 := ⟨f' - 1, by omega⟩
    cases hs : stepIP N IP with
    | none => simp [runLoop, hs]
    | some IP2 =>
      simp only [runLoop, hs] at hc ⊢
      rw [ih g IP2 (by omega) hc]

/-- C3: for N = 5 the run emits exactly the seven partitions
[5], [4,1], [3,2], [3,1,1], [2,2,1], [2,1,1,1], [1,1,1,1,1] in exactly
that order, and the loop terminates. -/
theorem claim_C3 (fuel : Nat) (h : 7 ≤ fuel) :
    (runN fuel 5).1.map nonZeroParts =
      [[5], [4, 1], [3, 2], [3, 1, 1], [2, 2, 1], [2, 1, 1, 1], [1, 1, 1, 1, 1]]
    ∧ (runN fuel 5).2 = true := by
  have hc : (runLoop 5 7 (initIP 5)).2 = true := by rfl
  have e := runLoop_mono 5 7 fuel (initIP 5) h hc
  simp only [runN, e]
  exact ⟨by rfl, by rfl⟩

/-- Witness for C3 at fuel 7. -/
theorem claim_C3_witness :
    (runN 7 5).1.map nonZeroParts =
      [[5], [4, 1], [3, 2], [3, 1, 1], [2, 2, 1], [2, 1, 1, 1], [1, 1, 1, 1, 1]]
    ∧ (runN 7 5).2 = true :=
  claim_C3 7 (by decide)

/-- C6 (evidence of the code bug): in the generation loop the batch
commit is reachable only through the ten-second progress branch, so on
any run where that branch does not fire at the exact instant the count
is a multiple of 100000 no periodic commit happens at all: with the
timer never firing the uncommitted backlog after rank r is the full r
(exceeding every bound), and even a firing timer commits nothing at a
count that is not an exact multiple. -/
theorem claim_C6 :
    (∀ r : Nat, uncommittedAfter (fun _ => false) r = r)
    ∧ commitsAt false 100000 = false
    ∧ commitsAt true 99999 = false := by
  refine ⟨?_, by decide, by decide⟩
  intro r
  induction r with
  | zero => rfl
  | succ r ih => simp [uncommittedAfter, commitsAt, ih]

/-- C7 (counterexample): on a stored population of 42 records (the
population size for N = 10) with the requested limit exceeding it, the
query returns the whole population silently clamped by LIMIT; it is a
total function with no failure outcome, contradicting the claim that it
must fail with InvalidSampleSize. -/
theorem claim_C7_cex :
    random_sample_sqlite (List.range 42) = List.range 42 ∧
      (random_sample_sqlite (List.range 42)).length = 42 := by
  constructor <;> rfl

/-- C7 (amended): when the requested amount (the hardcoded LIMIT of
100000) is at least the population size, the query silently returns the
entire population in engine order; no InvalidSampleSize rejection exists
in the code. -/
theorem claim_C7 (rows shuffled : List Nat) (hp : shuffled.Perm rows)
    (hl : rows.length ≤ 100000) :
    random_sample_sqlite shuffled = shuffled := by
  unfold random_sample_sqlite
  exact List.take_of_length_le (hp.length_eq ▸ hl)

/-- Witness for C7 on a one-row population. -/
theorem claim_C7_witness : random_sample_sqlite [7] = [7] :=
  claim_C7 [7] [7] (List.Perm.refl _) (by decide)

/-- C8 (counterexample): the stored population [0, 1] can be delivered
by the engine as [0, 1] on one run and as [1, 0] on another (both are
permutations of the table, and the script passes no seed that would pin
the order down), and the two runs return different samples. -/
theorem claim_C8_cex :
    ([0, 1] : List Nat).Perm [1, 0] ∧
      random_sample_sqlite [0, 1] ≠ random_sample_sqlite [1, 0] := by
  constructor <;> decide

/-- C8 (amended): the sample is a function of the engine-delivered row
order alone - it contains only stored records, exactly
min(100000, population) of them, and two runs agree whenever the engine
delivers the same first 100000 rows; but the script passes no seed, so
nothing ties that order to any input. -/
theorem claim_C8 (rows shuffled shuffled' : List Nat) (hp : shuffled.Perm rows)
    (hpre : shuffled'.take 100000 = shuffled.take 100000) :
    ((random_sample_sqlite shuffled).length = min 100000 rows.length
      ∧ ∀ x ∈ random_sample_sqlite shuffled, x ∈ rows)
    ∧ random_sample_sqlite shuffled' = random_sample_sqlite shuffled := by
  refine ⟨⟨?_, ?_⟩, hpre⟩
  · rw [random_sample_sqlite, List.length_take, hp.length_eq]
  · intro x hx
    exact hp.subset (List.take_subset _ _ hx)

/-- Witness for C8 on the population [0, 1] delivered as [1, 0]. -/
theorem claim_C8_witness :
    ((random_sample_sqlite [1, 0]).length = min 100000 ([0, 1] : List Nat).length
      ∧ ∀ x ∈ random_sample_sqlite [1, 0], x ∈ ([0, 1] : List Nat))
    ∧ random_sample_sqlite [1, 0] = random_sample_sqlite [1, 0] :=
  claim_C8 [0, 1] [1, 0] [1, 0] (by decide) (by rfl)

/-- C9 (counterexample): run with N = -1 the enumeration loop performs
no validation: it appends one record (the array [-1, 0, ..., 0]) and
completes normally, rather than failing with InvalidInput before any
record is appended. -/
theorem claim_C9_cex :
    (runN 1 (-1)).1.length = 1 ∧ (runN 1 (-1)).2 = true :=
  ⟨rfl, rfl⟩

/-- C9 (amended): the code never validates N.  For any N less than or
equal to 1 (in particular any negative N) the loop is immediately
terminal: the run appends exactly its single initial record and
completes normally.  In the repository N is only ever instantiated from
the constant 80 or from range(1, 81), so no invalid N occurs in
practice. -/
theorem claim_C9 (N : Int) (fuel : Nat) (hN : N ≤ 1) (hf : 1 ≤ fuel) :
    (runN fuel N).1 = [initIP N] ∧ (runN fuel N).2 = true := by
  obtain ⟨g, rfl⟩ : ∃ g, fuel = g + 1 := ⟨fuel - 1, by omega⟩
  have hstep : stepIP N (initIP N) = none := by
    have hJ : findJ (initIP N) = 0 := by
      simp only [initIP, findJ, if_neg (by omega : ¬ (1 : Int) < N)]
    simp [stepIP, hJ]
  simp [runN, runLoop, hstep]

/-- Witness for C9 at N = 0, fuel 1. -/
theorem claim_C9_witness : (runN 1 0).1 = [initIP 0] ∧ (runN 1 0).2 = true :=
  claim_C9 0 1 (by decide) (by decide)

theorem getD_append_lt {α : Type} (l l' : List α) (d : α) (i : Nat) (h : i < l.length) :
    (l ++ l').getD i d = l.getD i d := by
  rw [List.getD_eq_getElem?_getD, List.getElem?_append_left h, ← List.getD_eq_getElem?_getD]

theorem getD_append_ge {α : Type} (l l' : List α) (d : α) (i : Nat) (h : l.length ≤ i) :
    (l ++ l').getD i d = l'.getD (i - l.length) d := by
  rw [List.getD_eq_getElem?_getD, List.getElem?_append_right h, ← List.getD_eq_getElem?_getD]

theorem getD_replicate {α : Type} (c : Nat) (x d : α) (i : Nat) :
    (List.replicate c x).getD i d = if i < c then x else d := by
  rw [List.getD_eq_getElem?_getD, List.getElem?_replicate]
  by_cases h : i < c
  · rw [if_pos h, if_pos h]; rfl
  · rw [if_neg h, if_neg h]; rfl

theorem getD_take {α : Type} (l : List α) (d : α) (p i : Nat) (h : i < p) :
    (l.take p).getD i d = l.getD i d := by
  rw [List.getD_eq_getElem?_getD, List.getD_eq_getElem?_getD, List.getElem?_take_of_lt h]

theorem targetZ_getD (A : List Nat) (c nv i : Nat) :
    (A ++ List.replicate c nv ++ ([] : List Nat)).getD i 0
      = if i < A.length then A.getD i 0
        else if i < A.length + c then nv
        else 0 := by
  rw [List.append_assoc, List.append_nil]
  by_cases h1 : i < A.length
  · rw [getD_append_lt _ _ _ _ h1, if_pos h1]
  · rw [getD_append_ge _ _ _ _ (by omega), if_neg h1, getD_replicate]
    by_cases h2 : i < A.length + c
    · rw [if_pos (by omega), if_pos h2]
    · rw [if_neg (by omega), if_neg h2]

theorem targetR_getD (A : List Nat) (c nv rem i : Nat) :
    (A ++ List.replicate c nv ++ [rem]).getD i 0
      = if i < A.length then A.getD i 0
        else if i < A.length + c then nv
        else if i = A.length + c then rem
        else 0 := by
  rw [List.append_assoc]
  by_cases h1 : i < A.length
  · rw [getD_append_lt _ _ _ _ h1, if_pos h1]
  · rw [getD_append_ge _ _ _ _ (by omega), if_neg h1]
    by_cases h2 : i < A.length + c
    · rw [getD_append_lt _ _ _ _ (by rw [List.length_replicate]; omega)]
      rw [getD_replicate, if_pos (by omega), if_pos h2]
    · rw [getD_append_ge _ _ _ _ (by rw [List.length_replicate]; omega)]
      rw [List.length_replicate, if_neg h2]
      by_cases h3 : i = A.length + c
      · rw [if_pos h3, show i - A.length - c = 0 by omega]
        rfl
      · rw [if_neg h3, show i - A.length - c = (i - A.length - c - 1) + 1 by omega]
        rfl

theorem writes_eq (l : List Nat) (p c nv rem : Nat)
    (hl80 : l.length ≤ 80) (hpl : p ≤ l.length)
    (hbound : p + c + (if rem = 0 then 0 else 1) ≤ 80) :
    (List.range' (p + c + (if rem = 0 then 0 else 1))
        (80 - (p + c + (if rem = 0 then 0 else 1)))).foldl (fun a i => a.set i 0)
      (if p + c < 80 then
        ((List.range c).foldl (fun a j => if p + j < 80 then a.set (p + j) (nv : Int) else a)
          (padL 80 l)).set (p + c) (rem : Int)
      else
        (List.range c).foldl (fun a j => if p + j < 80 then a.set (p + j) (nv : Int) else a)
          (padL 80 l))
    = padL 80 (l.take p ++ List.replicate c nv ++ (if rem = 0 then [] else [rem])) := by
  have hpadlen : (padL 80 l).length = 80 := padL_length l hl80
  have htakelen : (l.take p).length = p := by
    rw [List.length_take]
    omega
  have hip2len : (if p + c < 80 then
        ((List.range c).foldl (fun a j => if p + j < 80 then a.set (p + j) (nv : Int) else a)
          (padL 80 l)).set (p + c) (rem : Int)
      else
        (List.range c).foldl (fun a j => if p + j < 80 then a.set (p + j) (nv : Int) else a)
          (padL 80 l)).length = 80 := by
    by_cases h : p + c < 80
    · rw [if_pos h, List.length_set, copyFold_length]
      exact hpadlen
    · rw [if_neg h, copyFold_length]
      exact hpadlen
  have hip2 : ∀ i, i < 80 →
      (if p + c < 80 then
        ((List.range c).foldl (fun a j => if p + j < 80 then a.set (p + j) (nv : Int) else a)
          (padL 80 l)).set (p + c) (rem : Int)
      else
        (List.range c).foldl (fun a j => if p + j < 80 then a.set (p + j) (nv : Int) else a)
          (padL 80 l)).getD i 0
      = (if p ≤ i ∧ i < p + c then (nv : Int)
         else if i = p + c ∧ p + c < 80 then (rem : Int)
         else if i < l.length then (l.getD i 0 : Int) else 0) := by
    intro i hi
    by_cases hg : p + c < 80
    · rw [if_pos hg]
      by_cases hieq : p + c = i
      · subst hieq
        rw [getD_set_self _ _ _ (by rw [copyFold_length]; omega)]
        rw [if_neg (by omega), if_pos (by omega)]
      · rw [getD_set_ne _ _ _ _ hieq]
        rw [copyFold_getD _ _ _ _ hpadlen]
        by_cases hin : p ≤ i ∧ i < p + c
        · rw [if_pos (by omega), if_pos hin]
        · rw [if_neg (by omega), if_neg hin, if_neg (by omega)]
          rw [padL_getD l hl80]
    · rw [if_neg hg]
      rw [copyFold_getD _ _ _ _ hpadlen]
      by_cases hin : p ≤ i ∧ i < p + c
      · rw [if_pos (by omega), if_pos hin]
      · rw [if_neg (by omega), if_neg hin, if_neg (by omega)]
        rw [padL_getD l hl80]
  have htlen0 : (l.take p ++ List.replicate c nv ++ ([] : List Nat)).length = p + c := by
    simp [htakelen]
  have htlen1 : (l.take p ++ List.replicate c nv ++ [rem]).length = p + c + 1 := by
    simp [htakelen]
    omega
  by_cases hr : rem = 0
  · rw [if_pos hr] at hbound
    rw [if_pos hr, if_pos hr]
    apply ext_getD
    · rw [zeroFold_length, hip2len,
        padL_length (l.take p ++ List.replicate c nv ++ []) (by rw [htlen0]; omega)]
    · intro i hi
      rw [zeroFold_length, hip2len] at hi
      rw [zeroFold_getD,
        padL_getD (l.take p ++ List.replicate c nv ++ []) (by rw [htlen0]; omega) i, htlen0]
      by_cases hz : p + c + 0 ≤ i
      · rw [if_pos (show p + c + 0 ≤ i ∧ i < p + c + 0 + (80 - (p + c + 0)) by omega),
          if_neg (show ¬ i < p + c by omega)]
      · rw [if_neg (show ¬ (p + c + 0 ≤ i ∧ i < p + c + 0 + (80 - (p + c + 0))) by omega),
          if_pos (show i < p + c by omega)]
        rw [hip2 i hi, targetZ_getD, htakelen]
        by_cases c1 : i < p
        · rw [if_pos c1,
            if_neg (show ¬ (p ≤ i ∧ i < p + c) by omega),
            if_neg (show ¬ (i = p + c ∧ p + c < 80) by omega),
            if_pos (show i < l.length by omega),
            getD_take _ _ _ _ c1]
        · rw [if_neg c1,
            if_pos (show p ≤ i ∧ i < p + c by omega),
            if_pos (show i < p + c by omega)]
  · rw [if_neg hr] at hbound
    rw [if_neg hr, if_neg hr]
    apply ext_getD
    · rw [zeroFold_length, hip2len,
        padL_length (l.take p ++ List.replicate c nv ++ [rem]) (by rw [htlen1]; omega)]
    · intro i hi
      rw [zeroFold_length, hip2len] at hi
      rw [zeroFold_getD,
        padL_getD (l.take p ++ List.replicate c nv ++ [rem]) (by rw [htlen1]; omega) i, htlen1]
      by_cases hz : p + c + 1 ≤ i
      · rw [if_pos (show p + c + 1 ≤ i ∧ i < p + c + 1 + (80 - (p + c + 1)) by omega),
          if_neg (show ¬ i < p + c + 1 by omega)]
      · rw [if_neg (show ¬ (p + c + 1 ≤ i ∧ i < p + c + 1 + (80 - (p + c + 1))) by omega),
          if_pos (show i < p + c + 1 by omega)]
        rw [hip2 i hi, targetR_getD, htakelen]
        by_cases c1 : i < p
        · rw [if_pos c1,
            if_neg (show ¬ (p ≤ i ∧ i < p + c) by omega),
            if_neg (show ¬ (i = p + c ∧ p + c < 80) by omega),
            if_pos (show i < l.length by omega),
            getD_take _ _ _ _ c1]
        · rw [if_neg c1]
          by_cases c2 : i < p + c
          · rw [if_pos c2, if_pos (show p ≤ i ∧ i < p + c by omega)]
          · rw [if_neg c2,
              if_neg (show ¬ (p ≤ i ∧ i < p + c) by omega),
              if_pos (show i = p + c ∧ p + c < 80 by omega),
              if_pos (show i = p + c by omega)]

theorem getD_eq_getElem {α : Type} (l : List α) (d : α) (p : Nat) (hp : p < l.length) :
    l.getD p d = l[p] := by
  rw [List.getD_eq_getElem?_getD, List.getElem?_eq_getElem hp]
  rfl

theorem sum_decomp (l : List Nat) (p : Nat) (hp : p < l.length) :
    (l.take p).sum + l.getD p 0 + (l.drop (p+1)).sum = l.sum := by
  conv_rhs => rw [← List.take_append_drop p l]
  rw [List.sum_append, List.drop_eq_getElem_cons hp, List.sum_cons]
  rw [getD_eq_getElem l 0 p hp]
  omega

theorem sum_map_ofNat : ∀ s : List Nat, (s.map Int.ofNat).sum = ((s.sum : Nat) : Int) := by
  intro s
  induction s with
  | nil => rfl
  | cons x t ih =>
    rw [List.map_cons, List.sum_cons, List.sum_cons, ih]
    show ((x : Nat) : Int) + ((t.sum : Nat) : Int) = (((x + t.sum : Nat)) : Int)
    omega

theorem ite_pos_cast (x : Nat) :
    (if (0 : Int) < ((x : Nat) : Int) then (1 : Nat) else 0) = if x = 0 then 0 else 1 := by
  by_cases h : x = 0
  · subst h
    simp
  · rw [if_pos (by exact_mod_cast Nat.pos_of_ne_zero h), if_neg h]

theorem nextPart_bound (N : Nat) (l : List Nat) (hpos : ∀ x ∈ l, 0 < x)
    (hsum : l.sum = N) (ha : leadCount l ≠ 0) :
    (leadCount l - 1)
      + (l.getD (leadCount l - 1) 0 + (l.drop (leadCount l)).sum)
          / (l.getD (leadCount l - 1) 0 - 1)
      + (if (l.getD (leadCount l - 1) 0 + (l.drop (leadCount l)).sum)
            % (l.getD (leadCount l - 1) 0 - 1) = 0 then 0 else 1) ≤ N := by
  have hal : leadCount l ≤ l.length := leadCount_le_length l
  have hptm : leadCount l - 1 < l.length := by omega
  have hv : 1 < l.getD (leadCount l - 1) 0 := getD_lt_leadCount l _ (by omega)
  have hdec := sum_decomp l (leadCount l - 1) hptm
  rw [show leadCount l - 1 + 1 = leadCount l by omega] at hdec
  have hpS : leadCount l - 1 ≤ (l.take (leadCount l - 1)).sum := by
    have h1 := length_le_sum (l.take (leadCount l - 1))
      (fun x hx => hpos x (List.take_subset _ l hx))
    rw [List.length_take] at h1
    omega
  have hdm := Nat.div_add_mod
    (l.getD (leadCount l - 1) 0 + (l.drop (leadCount l)).sum)
    (l.getD (leadCount l - 1) 0 - 1)
  have hcle : (l.getD (leadCount l - 1) 0 + (l.drop (leadCount l)).sum)
        / (l.getD (leadCount l - 1) 0 - 1)
      ≤ (l.getD (leadCount l - 1) 0 - 1) *
        ((l.getD (leadCount l - 1) 0 + (l.drop (leadCount l)).sum)
          / (l.getD (leadCount l - 1) 0 - 1)) :=
    Nat.le_mul_of_pos_left _ (by omega)
  by_cases hrem0 : (l.getD (leadCount l - 1) 0 + (l.drop (leadCount l)).sum)
      % (l.getD (leadCount l - 1) 0 - 1) = 0
  · rw [if_pos hrem0]
    omega
  · rw [if_neg hrem0]
    omega

theorem stepIP_pad (N : Nat) (l : List Nat) (hpos : ∀ x ∈ l, 0 < x)
    (hsum : l.sum = N) (hN : N ≤ 80) :
    stepIP ((N : Nat) : Int) (padL 80 l) = (nextPart l).map (padL 80) := by
  have hlen80 : l.length ≤ 80 := le_trans (length_le_sum l hpos) (by omega)
  by_cases ha : leadCount l = 0
  · simp only [stepIP, nextPart]
    rw [findJ_pad, ha]
    rfl
  · have hal : leadCount l ≤ l.length := leadCount_le_length l
    have hptm : leadCount l - 1 < l.length := by omega
    have hv : 1 < l.getD (leadCount l - 1) 0 := getD_lt_leadCount l _ (by omega)
    have hdec := sum_decomp l (leadCount l - 1) hptm
    rw [show leadCount l - 1 + 1 = leadCount l by omega, hsum] at hdec
    have hA : (padL 80 l).take (leadCount l - 1)
        = (l.take (leadCount l - 1)).map Int.ofNat := by
      unfold padL
      rw [List.take_append_of_le_length (by rw [List.length_map]; omega)]
      exact (List.map_take _ _ _).symm
    have hgetD : (padL 80 l).getD (leadCount l - 1) 0
        = ((l.getD (leadCount l - 1) 0 : Nat) : Int) := by
      rw [padL_getD l hlen80, if_pos hptm]
    have hnv : ((l.getD (leadCount l - 1) 0 : Nat) : Int) - 1
        = ((l.getD (leadCount l - 1) 0 - 1 : Nat) : Int) := by omega
    have hrem : ((N : Nat) : Int) - (((l.take (leadCount l - 1)).sum : Nat) : Int)
        = ((l.getD (leadCount l - 1) 0 + (l.drop (leadCount l)).sum : Nat) : Int) := by
      omega
    have hnext : nextPart l = some (l.take (leadCount l - 1)
        ++ List.replicate ((l.getD (leadCount l - 1) 0 + (l.drop (leadCount l)).sum)
              / (l.getD (leadCount l - 1) 0 - 1)) (l.getD (leadCount l - 1) 0 - 1)
        ++ (if (l.getD (leadCount l - 1) 0 + (l.drop (leadCount l)).sum)
              % (l.getD (leadCount l - 1) 0 - 1) = 0 then []
            else [(l.getD (leadCount l - 1) 0 + (l.drop (leadCount l)).sum)
              % (l.getD (leadCount l - 1) 0 - 1)])) := by
      simp only [nextPart]
      rw [if_neg ha]
    have hbound := nextPart_bound N l hpos hsum ha
    simp only [stepIP]
    rw [findJ_pad]
    rw [if_neg ha]
    rw [hA, sum_map_ofNat, hgetD, hnv, hrem]
    rw [← Int.ofNat_fdiv, ← Int.ofNat_fmod]
    rw [Int.toNat_ofNat]
    rw [ite_pos_cast]
    rw [hnext, Option.map_some']
    exact congrArg some
      (writes_eq l (leadCount l - 1) _ _ _ hlen80 (by omega) (by omega))

theorem chain'_map_pad (N : Nat) (hN : N ≤ 80) :
    ∀ L : List (List Nat), (∀ x ∈ L, (∀ y ∈ x, 0 < y) ∧ x.sum = N) →
      L.Chain' (fun a b => nextPart a = some b) →
      (L.map (padL 80)).Chain' (fun a b => stepIP ((N : Nat) : Int) a = some b) := by
  intro L
  induction L with
  | nil => intro _ _; simp
  | cons x t ih =>
    intro hmem hch
    cases t with
    | nil => simp
    | cons y t2 =>
      rw [List.map_cons, List.map_cons]
      rw [List.chain'_cons] at hch
      obtain ⟨hxy, hch2⟩ := hch
      rw [List.chain'_cons]
      constructor
      · have hx := hmem x (by simp)
        rw [stepIP_pad N x hx.1 hx.2 hN, hxy]
        rfl
      · have hh := ih (fun z hz => hmem z (by simp [hz])) hch2
        rw [List.map_cons] at hh
        exact hh

theorem runLoop_chain (N : Nat) :
    ∀ (L : List (List Int)) (x : List Int) (fuel : Nat),
      List.Chain' (fun a b => stepIP ((N : Nat) : Int) a = some b) (x :: L) →
      (∀ z, (x :: L).getLast? = some z → stepIP ((N : Nat) : Int) z = none) →
      L.length < fuel →
      runLoop ((N : Nat) : Int) fuel x = (L, true) := by
  intro L
  induction L with
  | nil =>
    intro x fuel _ hlast hf
    obtain ⟨g, rfl⟩ : ∃ g, fuel = g + 1 := ⟨fuel - 1, by omega⟩
    have hx := hlast x rfl
    simp [runLoop, hx]
  | cons y L2 ih =>
    intro x fuel hch hlast hf
    obtain ⟨g, rfl⟩ : ∃ g, fuel = g + 1 := ⟨fuel - 1, by omega⟩
    rw [List.chain'_cons] at hch
    obtain ⟨hxy, hch2⟩ := hch
    have hlast2 : ∀ z, (y :: L2).getLast? = some z → stepIP ((N : Nat) : Int) z = none := by
      intro z hz
      exact hlast z (by rw [List.getLast?_cons_cons]; exact hz)
    have hrec := ih y g hch2 hlast2 (by simp only [List.length_cons] at hf; omega)
    simp only [runLoop, hxy, hrec]

theorem parts_valid (N : Nat) (l : List Nat) (hl : l ∈ parts N N) :
    (∀ y ∈ l, 0 < y) ∧ l.sum = N := by
  rcases (parts_mem N N l).mp hl with ⟨_, hb, hsum⟩
  exact ⟨fun y hy => (hb y hy).1, hsum⟩

theorem runN_parts (N fuel : Nat) (hN : N ≤ 80) (hf : (parts N N).length ≤ fuel) :
    runN fuel ((N : Nat) : Int) = ((parts N N).map (padL 80), true) := by
  rcases Nat.eq_zero_or_pos N with h0 | h1
  · subst h0
    rw [parts_zero]
    obtain ⟨g, rfl⟩ : ∃ g, fuel = g + 1 := ⟨fuel - 1, by
      rw [parts_zero] at hf
      simp at hf
      omega⟩
    have hpad : padL 80 ([] : List Nat) = initIP ((0 : Nat) : Int) := by rfl
    have hstep : stepIP ((0 : Nat) : Int) (initIP ((0 : Nat) : Int)) = none := by rfl
    simp only [runN, runLoop, hstep, List.map_cons, List.map_nil, hpad]
  · have hne := parts_ne_nil N N (by omega)
    have hhead := parts_head N N h1 h1
    rcases List.head?_eq_some_iff.mp hhead with ⟨T, hT⟩
    have hgN : greedy N N = [N] := greedy_of_le N N h1 (le_refl N)
    have hmem : ∀ x ∈ parts N N, (∀ y ∈ x, 0 < y) ∧ x.sum = N :=
      fun x hx => parts_valid N x hx
    have hch := chain'_map_pad N hN (parts N N) hmem (parts_chain N N)
    have hlast : ∀ z, ((parts N N).map (padL 80)).getLast? = some z →
        stepIP ((N : Nat) : Int) z = none := by
      intro z hz
      rw [List.getLast?_map, parts_getLast N N h1] at hz
      simp only [Option.map_some', Option.some.injEq] at hz
      subst hz
      have hrep : (∀ y ∈ List.replicate N 1, 0 < y) ∧ (List.replicate N 1).sum = N := by
        constructor
        · intro y hy
          rw [List.eq_of_mem_replicate hy]
          omega
        · simp
      rw [stepIP_pad N _ hrep.1 hrep.2 hN, nextPart_replicate_one]
      rfl
    rw [hT, hgN] at hch hlast ⊢
    rw [List.map_cons] at hch hlast ⊢
    have hpadN : padL 80 [N] = initIP ((N : Nat) : Int) := by
      simp [padL, initIP]
    rw [hpadN] at hch hlast
    have hrun := runLoop_chain N (T.map (padL 80)) (initIP ((N : Nat) : Int)) fuel
      hch hlast (by
        rw [hT] at hf
        simp only [List.length_cons, List.length_map] at hf ⊢
        omega)
    simp only [runN, hrun, hpadN]

set_option maxHeartbeats 12800000 in
set_option maxRecDepth 16000 in
theorem checkTbl_eq : checkTbl = true := by rfl

theorem checkTbl_spec : ∀ n, n < 81 → ∀ k, k < 81 → tentry n k = rhsTbl n k := by
  have h := checkTbl_eq
  unfold checkTbl at h
  rw [List.all_eq_true] at h
  intro n hn k hk
  have h2 := h n (List.mem_range.mpr hn)
  rw [List.all_eq_true] at h2
  exact eq_of_beq (h2 k (List.mem_range.mpr hk))

theorem tentry_parts : ∀ n, n ≤ 80 → ∀ k, k ≤ 80 → tentry n k = (parts n k).length := by
  intro n
  induction n using Nat.strong_induction_on with
  | _ n ihn =>
    intro hn k
    induction k with
    | zero =>
      intro _
      rw [checkTbl_spec n (by omega) 0 (by omega)]
      cases n with
      | zero => rw [parts_zero]; rfl
      | succ m =>
        rw [parts_succ_zero]
        simp [rhsTbl]
    | succ k ihk =>
      intro hk
      rw [checkTbl_spec n (by omega) (k+1) (by omega)]
      cases n with
      | zero => rw [parts_zero]; rfl
      | succ m =>
        rw [parts_succ_succ]
        unfold rhsTbl
        rw [if_neg (by omega : ¬ (m + 1 = 0)), if_neg (by omega : ¬ (k + 1 = 0))]
        rw [List.length_append]
        simp only [Nat.add_sub_cancel]
        by_cases hkm : k ≤ m
        · rw [if_pos (by omega : k + 1 ≤ m + 1), if_pos hkm]
          rw [List.length_map]
          rw [show m + 1 - (k + 1) = m - k from by omega]
          rw [ihn (m - k) (by omega) (by omega) (k + 1) (by omega)]
          rw [ihk (by omega)]
        · rw [if_neg (by omega : ¬ (k + 1 ≤ m + 1)), if_neg hkm]
          rw [List.length_nil, ihk (by omega)]

theorem mem_le_sum : ∀ (l : List Nat) (x : Nat), x ∈ l → x ≤ l.sum := by
  intro l
  induction l with
  | nil => simp
  | cons y t ih =>
    intro x hx
    rw [List.sum_cons]
    rcases List.mem_cons.mp hx with rfl | hx
    · omega
    · have := ih x hx
      omega

theorem multiset_sum_coe (l : List Nat) : (l : Multiset Nat).sum = l.sum := by
  rfl

theorem partsLen_card (n : Nat) : (parts n n).length = Fintype.card (Nat.Partition n) := by
  classical
  rw [← List.toFinset_card_of_nodup (parts_nodup n n), ← Finset.card_univ]
  have hchar : ∀ l, l ∈ (parts n n).toFinset →
      (l.Sorted (· ≥ ·) ∧ (∀ x ∈ l, 0 < x ∧ x ≤ n) ∧ l.sum = n) :=
    fun l hl => (parts_mem n n l).mp (List.mem_toFinset.mp hl)
  refine Finset.card_bij
    (fun l hl =>
      ⟨(l : Multiset Nat),
        fun hi => ((hchar l hl).2.1 _ (Multiset.mem_coe.mp hi)).1,
        by rw [multiset_sum_coe]; exact (hchar l hl).2.2⟩)
    (fun a ha => Finset.mem_univ _) ?_ ?_
  · intro a1 ha1 a2 ha2 heq
    have hp : (a1 : Multiset Nat) = (a2 : Multiset Nat) := congrArg Nat.Partition.parts heq
    have hperm : a1.Perm a2 := Multiset.coe_eq_coe.mp hp
    exact List.eq_of_perm_of_sorted hperm (hchar a1 ha1).1 (hchar a2 ha2).1
  · intro P _
    refine ⟨Multiset.sort (· ≥ ·) P.parts, ?_, ?_⟩
    · apply List.mem_toFinset.mpr
      apply (parts_mem n n _).mpr
      have hsum : (Multiset.sort (· ≥ ·) P.parts).sum = n := by
        rw [← multiset_sum_coe, Multiset.sort_eq]
        exact P.parts_sum
      refine ⟨Multiset.sort_sorted _ _, ?_, hsum⟩
      intro x hx
      have hxm : x ∈ P.parts := (Multiset.mem_sort _).mp hx
      refine ⟨P.parts_pos hxm, ?_⟩
      have := mem_le_sum _ x hx
      omega
    · apply Nat.Partition.ext
      exact Multiset.sort_eq _ _

theorem nonZeroParts_pad (l : List Nat) (hpos : ∀ x ∈ l, 0 < x) :
    nonZeroParts (padL 80 l) = l.map Int.ofNat := by
  unfold nonZeroParts padL
  rw [List.filter_append]
  have h1 : (l.map Int.ofNat).filter (fun v => decide (0 < v)) = l.map Int.ofNat := by
    apply List.filter_eq_self.mpr
    intro a ha
    rcases List.mem_map.mp ha with ⟨x, hx, rfl⟩
    have := hpos x hx
    simp only [decide_eq_true_eq]
    exact Int.ofNat_pos.mpr this
  have h2 : (List.replicate (80 - l.length) (0 : Int)).filter (fun v => decide (0 < v)) = [] := by
    apply List.filter_eq_nil_iff.mpr
    intro a ha
    rw [List.eq_of_mem_replicate ha]
    simp
  rw [h1, h2, List.append_nil]

theorem nextPart_none_iff (N : Nat) (l : List Nat) (hs : l.Sorted (· ≥ ·))
    (hpos : ∀ x ∈ l, 0 < x) (hsum : l.sum = N) :
    nextPart l = none ↔ l = List.replicate N 1 := by
  constructor
  · intro h
    have ha : leadCount l = 0 := by
      by_contra ha
      simp only [nextPart, if_neg ha] at h
      exact Option.some_ne_none _ h
    have hall : ∀ y ∈ l, y = 1 := by
      cases l with
      | nil => simp
      | cons x t =>
        have hx1 : ¬ 1 < x := by
          intro hx
          simp [leadCount, hx] at ha
        have hx : x = 1 := by
          have := hpos x (by simp)
          omega
        intro y hy
        rcases List.mem_cons.mp hy with rfl | hy
        · exact hx
        · have h1 := List.rel_of_sorted_cons hs y hy
          have h2 := hpos y (by simp [hy])
          omega
    have hrep := List.eq_replicate_of_mem hall
    have hlen : l.length = N := by
      rw [hrep] at hsum
      simp at hsum
      omega
    rw [← hlen]
    exact hrep
  · intro h
    subst h
    exact nextPart_replicate_one N

/-- C1: for every N in the code's domain (the scripts run N = 80 and N in
range(1, 81), so N ≤ 80) and any fuel at least the partition count, the
enumeration loop terminates and emits exactly p(N) = (parts N N).length
records, where parts N N enumerates the partitions of N and its length
is the integer partition-counting function (it equals the cardinality of
Mathlib's Nat.Partition N); in particular p(0) = 1, p(1) = 1, p(5) = 7,
p(10) = 42 and p(80) = 15796476. -/
theorem claim_C1 :
    (∀ N fuel : Nat, N ≤ 80 → tentry N N ≤ fuel →
      (runN fuel ((N : Nat) : Int)).1.length = (parts N N).length
        ∧ (runN fuel ((N : Nat) : Int)).2 = true)
    ∧ (∀ N : Nat, (parts N N).length = Fintype.card (Nat.Partition N))
    ∧ (parts 0 0).length = 1 ∧ (parts 1 1).length = 1 ∧ (parts 5 5).length = 7
    ∧ (parts 10 10).length = 42 ∧ (parts 80 80).length = 15796476 := by
  refine ⟨?_, partsLen_card, ?_, ?_, ?_, ?_, ?_⟩
  · intro N fuel hN hf
    have hf2 : (parts N N).length ≤ fuel := by
      rw [← tentry_parts N hN N hN]
      exact hf
    rw [runN_parts N fuel hN hf2]
    simp
  · rw [← tentry_parts 0 (by omega) 0 (by omega)]; rfl
  · rw [← tentry_parts 1 (by omega) 1 (by omega)]; rfl
  · rw [← tentry_parts 5 (by omega) 5 (by omega)]; rfl
  · rw [← tentry_parts 10 (by omega) 10 (by omega)]; rfl
  · rw [← tentry_parts 80 (by omega) 80 (by omega)]; rfl

/-- Witness for C1 at N = 5, fuel 7. -/
theorem claim_C1_witness :
    (runN 7 ((5 : Nat) : Int)).1.length = (parts 5 5).length
      ∧ (runN 7 ((5 : Nat) : Int)).2 = true :=
  claim_C1.1 5 7 (by decide) (by decide)

/-- C2: every state of the run (the initial record and each
post-transition state, which are exactly the emitted records) is the
zero-padding of a non-increasing list of positive parts summing to N:
the nonzero cells form a non-increasing prefix and their sum is exactly
N. -/
theorem claim_C2 (N fuel : Nat) (IP : List Int) (hN : N ≤ 80)
    (hf : tentry N N ≤ fuel) (hIP : IP ∈ (runN fuel ((N : Nat) : Int)).1) :
    ∃ l : List Nat, IP = padL 80 l ∧ l.Sorted (· ≥ ·) ∧ (∀ x ∈ l, 0 < x)
      ∧ l.sum = N ∧ nonZeroParts IP = l.map Int.ofNat
      ∧ (nonZeroParts IP).sum = ((N : Nat) : Int) := by
  have hf2 : (parts N N).length ≤ fuel := by
    rw [← tentry_parts N hN N hN]
    exact hf
  rw [runN_parts N fuel hN hf2] at hIP
  simp only [List.mem_map] at hIP
  rcases hIP with ⟨l, hl, rfl⟩
  rcases (parts_mem N N l).mp hl with ⟨hsort, hb, hsum⟩
  have hpos : ∀ x ∈ l, 0 < x := fun x hx => (hb x hx).1
  refine ⟨l, rfl, hsort, hpos, hsum, nonZeroParts_pad l hpos, ?_⟩
  rw [nonZeroParts_pad l hpos, sum_map_ofNat, hsum]

/-- Witness for C2 at N = 5, fuel 7, on the initial record. -/
theorem claim_C2_witness :
    ∃ l : List Nat, initIP ((5 : Nat) : Int) = padL 80 l ∧ l.Sorted (· ≥ ·)
      ∧ (∀ x ∈ l, 0 < x) ∧ l.sum = 5
      ∧ nonZeroParts (initIP ((5 : Nat) : Int)) = l.map Int.ofNat
      ∧ (nonZeroParts (initIP ((5 : Nat) : Int))).sum = ((5 : Nat) : Int) :=
  claim_C2 5 7 (initIP ((5 : Nat) : Int)) (by decide) (by decide) (by simp [runN])

/-- C4: consecutively emitted arrays strictly decrease in the
lexicographic order on the zero-padded fixed-capacity arrays (the later
record is smaller than the earlier one). -/
theorem claim_C4 (N fuel : Nat) (hN : N ≤ 80) (hf : tentry N N ≤ fuel) :
    ((runN fuel ((N : Nat) : Int)).1).Chain' (fun x y => List.Lex (· < ·) y x) := by
  have hf2 : (parts N N).length ≤ fuel := by
    rw [← tentry_parts N hN N hN]
    exact hf
  rw [runN_parts N fuel hN hf2]
  apply (List.chain'_map _).mpr
  apply List.Pairwise.chain'
  apply List.Pairwise.imp_of_mem ?_ (parts_pairwise N N)
  intro a b ha _ h
  exact lex_pad 80 a b h (fun x hx => ((parts_mem N N a).mp ha).2.1 x hx |>.1)

/-- Witness for C4 at N = 5, fuel 7. -/
theorem claim_C4_witness :
    ((runN 7 ((5 : Nat) : Int)).1).Chain' (fun x y => List.Lex (· < ·) y x) :=
  claim_C4 5 7 (by decide) (by decide)

/-- C5: on every valid partition state the transition is terminal exactly
when the state is the all-ones partition (for N ≤ 1 the initial state is
already of that form, so it is immediately terminal); consequently for
1 ≤ N ≤ 80 the final emitted record is the padding of N copies of 1, and
for N = 1 the run emits the single record [1] with zero transitions. -/
theorem claim_C5 :
    (∀ (N : Nat) (l : List Nat), N ≤ 80 → l.Sorted (· ≥ ·) → (∀ x ∈ l, 0 < x) →
      l.sum = N →
      (stepIP ((N : Nat) : Int) (padL 80 l) = none ↔ l = List.replicate N 1))
    ∧ (∀ N fuel : Nat, 1 ≤ N → N ≤ 80 → tentry N N ≤ fuel →
      (runN fuel ((N : Nat) : Int)).1.getLast? = some (padL 80 (List.replicate N 1)))
    ∧ (∀ fuel : Nat, 1 ≤ fuel →
      runN fuel ((1 : Nat) : Int) = ([initIP ((1 : Nat) : Int)], true)) := by
  refine ⟨?_, ?_, ?_⟩
  · intro N l hN hs hpos hsum
    rw [stepIP_pad N l hpos hsum hN]
    rw [Option.map_eq_none']
    exact nextPart_none_iff N l hs hpos hsum
  · intro N fuel h1 hN hf
    have hf2 : (parts N N).length ≤ fuel := by
      rw [← tentry_parts N hN N hN]
      exact hf
    rw [runN_parts N fuel hN hf2]
    simp only [List.getLast?_map]
    rw [parts_getLast N N h1]
    rfl
  · intro fuel hfuel
    obtain ⟨g, rfl⟩ : ∃ g, fuel = g + 1 := ⟨fuel - 1, by omega⟩
    have hstep : stepIP (1 : Int) (initIP (1 : Int)) = none := by rfl
    simp [runN, runLoop, hstep, Nat.cast_one]

/-- Witness for C5: the all-ones state for N = 5 is terminal, the last
record of the N = 5 run is the padded all-ones array, and the N = 1 run
is a single record. -/
theorem claim_C5_witness :
    (stepIP ((5 : Nat) : Int) (padL 80 [1, 1, 1, 1, 1]) = none
      ↔ ([1, 1, 1, 1, 1] : List Nat) = List.replicate 5 1)
    ∧ (runN 7 ((5 : Nat) : Int)).1.getLast? = some (padL 80 (List.replicate 5 1))
    ∧ runN 1 ((1 : Nat) : Int) = ([initIP ((1 : Nat) : Int)], true) :=
  ⟨claim_C5.1 5 [1, 1, 1, 1, 1] (by decide) (by decide) (by decide) (by decide),
   claim_C5.2.1 5 7 (by decide) (by decide) (by decide),
   claim_C5.2.2 1 (by decide)⟩

/-- C10: on every valid partition state with N ≤ 80 that is not terminal,
the write extent part_to_modify + count + (1 if remainder > 0 else 0)
stays within the 80-cell capacity, and consequently the guarded writes
drop nothing: the transition result is exactly the padding of the
untruncated list A ++ count copies of new_value ++ remainder. -/
theorem claim_C10 (N : Nat) (l : List Nat) (hN : N ≤ 80)
    (hs : l.Sorted (· ≥ ·)) (hpos : ∀ x ∈ l, 0 < x) (hsum : l.sum = N)
    (ha : leadCount l ≠ 0) :
    ((leadCount l - 1)
        + (l.getD (leadCount l - 1) 0 + (l.drop (leadCount l)).sum)
            / (l.getD (leadCount l - 1) 0 - 1)
        + (if (l.getD (leadCount l - 1) 0 + (l.drop (leadCount l)).sum)
              % (l.getD (leadCount l - 1) 0 - 1) = 0 then 0 else 1) ≤ 80)
    ∧ stepIP ((N : Nat) : Int) (padL 80 l) = (nextPart l).map (padL 80) := by
  refine ⟨?_, stepIP_pad N l hpos hsum hN⟩
  have hb := nextPart_bound N l hpos hsum ha
  omega

/-- Witness for C10 on the state [3, 2] of the N = 5 run. -/
theorem claim_C10_witness :
    ((leadCount [3, 2] - 1)
        + (([3, 2] : List Nat).getD (leadCount [3, 2] - 1) 0
              + (([3, 2] : List Nat).drop (leadCount [3, 2])).sum)
            / (([3, 2] : List Nat).getD (leadCount [3, 2] - 1) 0 - 1)
        + (if (([3, 2] : List Nat).getD (leadCount [3, 2] - 1) 0
              + (([3, 2] : List Nat).drop (leadCount [3, 2])).sum)
              % (([3, 2] : List Nat).getD (leadCount [3, 2] - 1) 0 - 1) = 0
            then 0 else 1) ≤ 80)
    ∧ stepIP ((5 : Nat) : Int) (padL 80 [3, 2]) = (nextPart [3, 2]).map (padL 80) :=
  claim_C10 5 [3, 2] (by decide) (by decide) (by decide) (by decide) (by decide)
